import Mathlib

/-!
Verification development for the `Redactor` repository's redaction engine
(`pdf_parser.py`, function `redact_sensitive` and its helpers).

The engine is a pipeline of Python `re.sub` / `re.findall` passes over a text.
We embed it shallowly: text is a `List Char`, and each regular expression of
the source is transliterated, construct by construct, into a small
backtracking matcher combinator library (`RM`) whose result list is ordered
exactly as Python's backtracking engine explores alternatives (greedy
quantifiers longest-first, alternation left-first, optional present-first),
so that the head of the list is the match Python produces.  `reSub` then
reproduces `re.sub`'s leftmost, non-overlapping scan over the original text.
Character classes (`\w`, `\s`, `\d`) are modelled at their ASCII meaning,
which coincides with Python's on the ASCII incident text this tool processes.
-/

set_option maxRecDepth 200000
set_option maxHeartbeats 8000000

namespace Redactor

/-- Python `\d` over ASCII (comparisons are on code points, which the kernel
evaluates fast). -/
def isDigitC (c : Char) : Bool := 48 ≤ c.toNat && c.toNat ≤ 57

/-- ASCII upper-case letter, class `[A-Z]`. -/
def isUpperC (c : Char) : Bool := 65 ≤ c.toNat && c.toNat ≤ 90

/-- ASCII lower-case letter, class `[a-z]`. -/
def isLowerC (c : Char) : Bool := 97 ≤ c.toNat && c.toNat ≤ 122

/-- ASCII letter (a cased character, for Python's `str.islower`). -/
def isAlphaC (c : Char) : Bool := isUpperC c || isLowerC c

/-- Python `\w` over ASCII: letters, digits and underscore. -/
def isWordC (c : Char) : Bool := isAlphaC c || isDigitC c || c.toNat = 95

/-- Python `\s` over ASCII: space, tab, newline, carriage return, vertical tab, form feed. -/
def isSpaceC (c : Char) : Bool :=
  c.toNat = 32 || c.toNat = 9 || c.toNat = 10 || c.toNat = 13 || c.toNat = 11 || c.toNat = 12

/-- Hexadecimal digit, class `[0-9A-Fa-f]`. -/
def isHexC (c : Char) : Bool :=
  isDigitC c || (65 ≤ c.toNat && c.toNat ≤ 70) || (97 ≤ c.toNat && c.toNat ≤ 102)

/-- A matcher state: the previously consumed character (for `\b`), the rest of
the text, the number of characters consumed since the match started, and the
capture spans recorded so far (as offsets into the match). -/
structure RSt where
  prev : Option Char
  rest : List Char
  pos : Nat
  caps : List (Nat × Nat)
deriving Repr

/-- A regex matcher: from a state, the list of successor states in Python's
backtracking preference order (head = preferred). -/
abbrev RM := RSt → List RSt

/-- Match one literal character. -/
def rchar (c : Char) : RM := fun st =>
  match st.rest with
  | x :: xs => if x = c then [⟨some x, xs, st.pos + 1, st.caps⟩] else []
  | [] => []

/-- Match one character of a class. -/
def rcls (p : Char → Bool) : RM := fun st =>
  match st.rest with
  | x :: xs => if p x then [⟨some x, xs, st.pos + 1, st.caps⟩] else []
  | [] => []

/-- Match a literal string. -/
def rlit : List Char → RM
  | [] => fun st => [st]
  | c :: cs => fun st => (rchar c st).flatMap (rlit cs)

/-- Sequencing: all continuations of the first matcher, explored in order. -/
def rseq (a b : RM) : RM := fun st => (a st).flatMap b

/-- Alternation `x|y`: left branch preferred. -/
def ralt (a b : RM) : RM := fun st => a st ++ b st

/-- Greedy option `x?`: present preferred. -/
def ropt (a : RM) : RM := fun st => a st ++ [st]

/-- Word boundary `\b` between the previously consumed character and the next one. -/
def rbnd : RM := fun st =>
  let wl := match st.prev with | some c => isWordC c | none => false
  let wr := match st.rest with | c :: _ => isWordC c | [] => false
  if wl != wr then [st] else []

/-- Python `$`: end of text, or just before a final newline. -/
def rend : RM := fun st =>
  match st.rest with
  | [] => [st]
  | [c] => if c = '\n' then [st] else []
  | _ => []

/-- States reached by consuming successive characters of class `p`,
in increasing length of consumption (0, 1, ..., maximal run). -/
def clsStatesAux (p : Char → Bool) (prev : Option Char) (pos : Nat)
    (caps : List (Nat × Nat)) : List Char → List RSt
  | [] => [⟨prev, [], pos, caps⟩]
  | c :: cs =>
    ⟨prev, c :: cs, pos, caps⟩ ::
      (if p c then clsStatesAux p (some c) (pos + 1) caps cs else [])

/-- Greedy class repetition `p{lo,hi}` (`hi = none` for unbounded): states in
Python's preference order, i.e. longest consumption first. -/
def rclsRep (p : Char → Bool) (lo : Nat) (hi : Option Nat) : RM := fun st =>
  let all := clsStatesAux p st.prev st.pos st.caps st.rest
  let all := match hi with | some h => all.take (h + 1) | none => all
  (all.drop lo).reverse

/-- Exact repetition of a compound matcher, `(...){n}`. -/
def rrep (a : RM) : Nat → RM
  | 0 => fun st => [st]
  | n + 1 => rseq a (rrep a n)

/-- Capturing group: record the span of the inner match. -/
def rcap (a : RM) : RM := fun st =>
  (a st).map (fun st' => { st' with caps := st'.caps ++ [(st.pos, st'.pos)] })

/-- Result of a successful match attempt at a position: the match length and
the recorded capture spans (offsets into the match). -/
structure MRes where
  len : Nat
  caps : List (Nat × Nat)
deriving Repr

/-- Run a matcher at the current position: Python returns the first
alternative the backtracking engine finds. -/
def rmatch (m : RM) (prev : Option Char) (l : List Char) : Option MRes :=
  match m ⟨prev, l, 0, []⟩ with
  | [] => none
  | st :: _ => some ⟨st.pos, st.caps⟩

/-- `re.sub`'s scan: try the pattern at each position of the original text,
left to right; on a match, emit the replacement and resume after the match
(matching always continues against the original text, as in Python; a match
of length `n + 1` consumes its first character and then skips `n` more).
`repl` receives the start offset of the match in the original text, the
matched slice, the capture spans, and a state (used for the closure-mutated
counters of the source). -/
def reSubGo {σ : Type} (tryM : Option Char → List Char → Option MRes)
    (repl : Nat → List Char → List (Nat × Nat) → σ → List Char × σ) :
    Nat → Option Char → Nat → σ → List Char → List Char × σ
  | _, _, _, s, [] => ([], s)
  | skip + 1, _, pos, s, c :: cs => reSubGo tryM repl skip (some c) (pos + 1) s cs
  | 0, prev, pos, s, c :: cs =>
    match tryM prev (c :: cs) with
    | some r =>
      match r.len with
      | 0 =>
        let t := reSubGo tryM repl 0 (some c) (pos + 1) s cs
        (c :: t.1, t.2)
      | n + 1 =>
        let m := (c :: cs).take (n + 1)
        let rs := repl pos m r.caps s
        let t := reSubGo tryM repl n (some c) (pos + 1) rs.2 cs
        (rs.1 ++ t.1, t.2)
    | none =>
      let t := reSubGo tryM repl 0 (some c) (pos + 1) s cs
      (c :: t.1, t.2)

/-- Entry point of the scan. -/
def reSub {σ : Type} (tryM : Option Char → List Char → Option MRes)
    (repl : Nat → List Char → List (Nat × Nat) → σ → List Char × σ)
    (prev : Option Char) (pos : Nat) (s : σ) (l : List Char) : List Char × σ :=
  reSubGo tryM repl 0 prev pos s l

/-- Number of non-overlapping matches of a pattern over a text (the length of
`re.findall`, scanning exactly as `reSub` does). -/
def reCount (pat : RM) (t : List Char) : Nat :=
  (reSub (rmatch pat) (fun _ m _ c => (m, c + 1)) none 0 0 t).2

/-- Extract a capture span from the matched slice. -/
def capSlice (m : List Char) (sp : Nat × Nat) : List Char :=
  (m.drop sp.1).take (sp.2 - sp.1)

/-- A matcher is consuming when every successor state's rest is a suffix of
the input state's rest (all the combinators above are). -/
def Consuming (m : RM) : Prop := ∀ st st', st' ∈ m st → st'.rest <:+ st.rest

/-! ### Small Python string-function models -/

/-- Map to lower case (ASCII, as `str.lower` behaves on this tool's text). -/
def lowerList (l : List Char) : List Char := l.map Char.toLower

/-- Pack a character list into a `String` (for vocabulary comparisons). -/
def strOf (l : List Char) : String := String.mk l

/-- Lower-cased string of a character list. -/
def lowerStr (l : List Char) : String := String.mk (lowerList l)

/-- Python `needle in haystack` substring test. -/
def containsSubstr (n : List Char) : List Char → Bool
  | [] => n.isEmpty
  | c :: cs => n.isPrefixOf (c :: cs) || containsSubstr n cs

/-- Helper of `pySplitWs`: accumulate the current word (reversed) while
scanning. -/
def pySplitWsAux (cur : List Char) : List Char → List (List Char)
  | [] => if cur.isEmpty then [] else [cur.reverse]
  | c :: cs =>
    if isSpaceC c then
      if cur.isEmpty then pySplitWsAux [] cs
      else cur.reverse :: pySplitWsAux [] cs
    else pySplitWsAux (c :: cur) cs

/-- Python `str.split()` — split on whitespace runs, dropping empty pieces. -/
def pySplitWs (l : List Char) : List (List Char) := pySplitWsAux [] l

/-- Python `str.split(sep)` for a one-character separator, keeping empty pieces. -/
def pySplitOn (sep : Char) : List Char → List (List Char)
  | [] => [[]]
  | c :: cs =>
    if c = sep then [] :: pySplitOn sep cs
    else
      match pySplitOn sep cs with
      | [] => [[c]]
      | w :: ws => (c :: w) :: ws

/-- Python `int()` restricted to the plain digit strings the IP regex can
produce (on which it always succeeds); `none` models `ValueError`. -/
def parseIntPy (l : List Char) : Option Nat :=
  if !l.isEmpty && l.all isDigitC then
    some (l.foldl (fun a c => a * 10 + (c.toNat - '0'.toNat)) 0)
  else none

/-- Python `str.isdigit` (ASCII). -/
def pyIsDigit (l : List Char) : Bool := !l.isEmpty && l.all isDigitC

/-- Python `str.islower`: at least one cased character and no cased character
upper-case (ASCII). -/
def pyIsLower (l : List Char) : Bool :=
  l.any isAlphaC && l.all (fun c => !isAlphaC c || isLowerC c)

/-! ### The precompiled patterns of `REGEX_PATTERNS` and the inline patterns -/

/-- `\b(?:\d{1,3}\.){3}\d{1,3}\b` (key `ip_addresses`). -/
def ipPat : RM :=
  rseq rbnd (rseq (rrep (rseq (rclsRep isDigitC 1 (some 3)) (rchar '.')) 3)
    (rseq (rclsRep isDigitC 1 (some 3)) rbnd))

/-- `(?:[0-9A-Fa-f]{2}[:-]){5}[0-9A-Fa-f]{2}` (key `mac_addresses`). -/
def macPat : RM :=
  rseq (rrep (rseq (rclsRep isHexC 2 (some 2)) (rcls (fun c => c = ':' || c = '-'))) 5)
    (rclsRep isHexC 2 (some 2))

/-- Class `[A-Za-z0-9._%+-]` of the email local part. -/
def emailLocalC (c : Char) : Bool :=
  isAlphaC c || isDigitC c || c = '.' || c = '_' || c = '%' || c = '+' || c = '-'

/-- Class `[A-Za-z0-9.-]` of the email domain part. -/
def emailDomainC (c : Char) : Bool := isAlphaC c || isDigitC c || c = '.' || c = '-'

/-- Class `[A-Z|a-z]` of the email top-level part (the source class literally
contains the bar character). -/
def emailTldC (c : Char) : Bool := isUpperC c || c = '|' || isLowerC c

/-- `\b[A-Za-z0-9._%+-]+@[A-Za-z0-9.-]+\.[A-Z|a-z]{2,}\b` (key `email_addresses`). -/
def emailPat : RM :=
  rseq rbnd (rseq (rclsRep emailLocalC 1 none) (rseq (rchar '@')
    (rseq (rclsRep emailDomainC 1 none) (rseq (rchar '.')
      (rseq (rclsRep emailTldC 2 none) rbnd)))))

/-- `EVE\d{8}` (key `employee_ids`). -/
def employeePat : RM := rseq (rlit "EVE".data) (rclsRep isDigitC 8 (some 8))

/-- `IMEI[#\s]*\d+` (key `imei_numbers`). -/
def imeiPat : RM :=
  rseq (rlit "IMEI".data)
    (rseq (rclsRep (fun c => c = '#' || isSpaceC c) 0 none) (rclsRep isDigitC 1 none))

/-- `Account\s+\d{8,}(-\d+)?` (key `account_numbers`; the group is not used by
the replacement, so it is not captured here). -/
def accountPat : RM :=
  rseq (rlit "Account".data) (rseq (rclsRep isSpaceC 1 none)
    (rseq (rclsRep isDigitC 8 none) (ropt (rseq (rchar '-') (rclsRep isDigitC 1 none)))))

/-- `https?://\S+` (key `urls`). -/
def urlPat : RM :=
  rseq (rlit "http".data) (rseq (ropt (rchar 's'))
    (rseq (rlit "://".data) (rclsRep (fun c => !isSpaceC c) 1 none)))

/-- `\b([A-Z][a-z]+)\s+([A-Z])[a-z]+\b` (key `names`). -/
def namesPat : RM :=
  rseq rbnd (rseq (rcap (rseq (rcls isUpperC) (rclsRep isLowerC 1 none)))
    (rseq (rclsRep isSpaceC 1 none)
      (rseq (rcap (rcls isUpperC)) (rseq (rclsRep isLowerC 1 none) rbnd))))

/-- `[-.\s]`, the separator class of the inline phone pattern. -/
def phoneSepC (c : Char) : Bool := c = '-' || c = '.' || isSpaceC c

/-- `(?:\+?1[-.\s]?)?\(?[0-9]{3}\)?[-.\s]?[0-9]{3}[-.\s]?[0-9]{4}\b`
(the inline `phone_pattern`). -/
def phonePat : RM :=
  rseq (ropt (rseq (ropt (rchar '+')) (rseq (rchar '1') (ropt (rcls phoneSepC)))))
    (rseq (ropt (rchar '('))
      (rseq (rclsRep isDigitC 3 (some 3))
        (rseq (ropt (rchar ')'))
          (rseq (ropt (rcls phoneSepC))
            (rseq (rclsRep isDigitC 3 (some 3))
              (rseq (ropt (rcls phoneSepC))
                (rseq (rclsRep isDigitC 4 (some 4)) rbnd)))))))

/-- `(Run [Bb]y\s*:\s*)[^\n]+` (the inline `run_by_pattern`). -/
def runByPat : RM :=
  rseq (rcap (rseq (rlit "Run ".data) (rseq (rcls (fun c => c = 'B' || c = 'b'))
      (rseq (rchar 'y') (rseq (rclsRep isSpaceC 0 none)
        (rseq (rchar ':') (rclsRep isSpaceC 0 none)))))))
    (rclsRep (fun c => c != '\n') 1 none)

/-- `(\w+)\s+(<field>)` — the ServiceNow-field formatting pre-pass pattern,
built per field label with `re.escape` (the labels contain no metacharacters). -/
def fieldPat (label : List Char) : RM :=
  rseq (rcap (rclsRep isWordC 1 none)) (rseq (rclsRep isSpaceC 1 none) (rcap (rlit label)))

/-! ### The ServiceNow formatting pre-pass -/

def servicenow_fields : List String := [
  "Impact:", "Urgency:", "Priority:",
  "Responsible party:", "Assignment group:", "Customer Assignment Group:",
  "Assigned to:", "Opened by:", "Resolved by:",
  "Company:", "Location:", "Configuration item:",
  "Service Offering:", "Category:", "Subcategory:",
  "Application:", "Business service:", "Service offering:",
  "Contact type:", "Caller name:", "Caller email:",
  "Caller phone:", "Caller:", "Vendor:",
  "Carrier:", "Follow up by:", "Event date:",
  "Primary agreement:", "Pending reason:", "Handoff:",
  "Last Reoccurrence:", "Last Touched:", "Sync Ticket with Customer:",
  "Service Restored:", "Alert Cleared:", "Short description:",
  "Notes:", "Watch list:", "Time worked:",
  "Customer watch list:", "Current status:", "Next steps:",
  "Additional comments:", "Close code:", "Cause code:",
  "Close notes:", "Root cause:"]

def business_terms : List String := [
  "niagara", "delaware", "eastern", "western", "northern", "southern",
  "central", "melbourne", "presidio", "docklands", "tower", "wheeling",
  "downs", "gaming", "falls", "stadium", "island", "hotel",
  "casino", "racetrack", "banquet", "buffet", "showroom", "employee",
  "lounge", "giftshop", "sportsbook", "human", "resources", "pointe",
  "restaurant", "datacenter", "promotions", "spare", "production", "security",
  "service", "management", "client", "customer", "activity", "change",
  "incident", "request", "access", "event", "status", "pending",
  "hold", "time", "integration", "monitoring", "network", "device",
  "system", "server", "router", "switch", "firewall", "appliance",
  "configuration", "automation", "logic", "checkpoint", "verizon", "logicmonitor",
  "datacenter", "center", "unified", "communications", "manager", "vmware",
  "vcenter", "instance", "compute", "storage", "gewig", "gewiggafw",
  "gewigga", "gewigoamt", "gewig16nv", "gewig16dhcp", "gewigfpclus", "gewigagysws",
  "gewig16v1ws", "gewig19clus", "gewiggavrapp", "gewig19fp", "meraki", "cisco",
  "catalyst", "proliant", "nimble", "checkpoint", "mr32", "ws-c3560x",
  "ws-c2960", "bl460c", "gen9", "esxi", "windows", "linux",
  "ubuntu", "redhat", "centos", "vmware", "microsoft", "intel",
  "amd", "hp", "dell", "itrak", "everi", "floor",
  "monitor", "unavailable", "offline", "online", "companies", "inc",
  "corp", "ltd", "llc", "north", "services", "offering",
  "category", "subcategory", "carrier", "vendor", "circuit", "wireless",
  "comcast", "segra", "start", "metro", "eline", "etta",
  "lopp", "cfw", "daylight", "standard", "mountain", "pacific",
  "atlantic", "worked", "notes", "steps", "team", "group",
  "resolution", "escalation", "priority", "impact", "urgency", "assignment",
  "billing", "reporting", "entitlement", "date", "run", "opened",
  "closed", "updated", "created", "resolved", "assigned", "caller",
  "contact", "description", "summary", "comments", "worknotes", "private",
  "public", "minutes", "seconds", "hours", "days", "weeks",
  "months", "years", "elapsed", "percentage", "achieved", "cancelled",
  "breached", "threshold", "alert", "level", "progress", "pending",
  "hold", "cancelled", "new", "draft", "review", "approved",
  "rejected", "processing", "complete", "failed", "success", "waiting",
  "active", "inactive", "enabled", "disabled", "available", "unavailable",
  "maintenance", "operational", "critical", "high", "medium", "low",
  "informational", "warning", "error", "debug", "trace", "verbose",
  "quiet", "silent", "resource", "offline", "online", "critical",
  "medium", "high", "low", "vmware", "microsoft", "windows",
  "linux", "cisco", "meraki", "unity", "ethernet", "fabric",
  "virtual", "backup", "restore", "patch", "managed", "collaboration",
  "engineer", "datacenter", "storage", "compute", "hypervisor", "vmotion",
  "drs", "ha", "cluster", "domain", "controller", "dhcp",
  "dns", "ntp", "snmp", "ssh", "rdp", "vnc",
  "console", "terminal", "shell", "bash", "powershell", "cmd",
  "registry", "service", "daemon", "process", "thread", "memory",
  "cpu", "disk", "network", "interface", "port", "protocol",
  "tcp", "udp", "icmp", "http", "https", "ftp",
  "sftp", "smtp", "pop3", "imap", "monitor", "alert",
  "notification", "threshold", "baseline", "metric", "dashboard", "report",
  "analytics", "statistics", "performance", "utilization", "capacity", "availability",
  "reliability", "scalability", "security", "compliance", "audit", "log",
  "event", "incident", "problem", "change", "release", "deployment",
  "rollback", "maintenance", "upgrade", "downgrade", "caller", "opened",
  "assigned", "resolved", "closed", "updated", "created", "description",
  "summary", "comments", "worknotes", "private", "public", "ticket",
  "number", "state", "reason", "follow", "contact", "business",
  "location", "impact", "urgency", "priority", "assignment", "handoff",
  "report", "configuration", "alert", "query", "related", "problem",
  "parent", "customer", "service", "business", "time", "priority",
  "assignment", "escalation", "primary", "secondary", "reference"]

def compound_terms : List String := [
  "delaware north", "niagara falls", "eastern daylight", "melbourne docklands",
  "network services", "security device", "service offering", "configuration item",
  "time worked", "activity task", "incident details", "work notes",
  "monitoring automation", "integration user", "escalation group", "wheeling downs",
  "gaming location", "hotel casino", "casino racetrack", "system server",
  "device management", "resource offline", "vmware center", "microsoft windows",
  "network circuit", "ip address", "mac address", "backup services",
  "managed services", "data center", "patch management", "collaboration engineer",
  "security engineer", "network engineer", "systems engineer", "run date",
  "run by", "opened by", "assigned to", "contact type",
  "ticket integration", "business service", "configuration item", "service restored",
  "additional comments", "short description", "current status", "next steps",
  "work notes", "incident number", "customer ticket", "time worked",
  "assignment group", "responsible party", "service offering", "network management",
  "escalation group", "primary agreement", "in progress", "on hold",
  "pending client", "pending vendor", "pending approval", "work in",
  "under review", "awaiting approval", "pending closure", "pending customer",
  "pending internal", "high priority", "low priority", "medium priority",
  "critical priority", "service restored", "service degraded", "in review",
  "work progress", "solution provided", "report type", "configuration item",
  "alert count", "query condition", "related list", "problem ticket",
  "parent incident", "customer ticket", "service restored", "business impact",
  "time worked", "priority impact", "assignment group", "escalation group",
  "primary agreement", "secondary contact", "reference number", "last resolved",
  "last updated", "last touched", "access point", "network gear",
  "ip switch", "network switch", "ip firewall", "esx server",
  "vmware esxi", "windows server", "linux server", "blade server",
  "storage device", "backup device", "monitoring device", "security appliance",
  "network appliance", "presidio appliance", "managed device", "compute device",
  "virtual machine", "virtual server", "virtual appliance", "compute resource",
  "storage resource", "network resource", "backup resource", "security resource",
  "wheeling downs", "melbourne docklands", "hotel casino", "casino racetrack",
  "gaming hotel", "hotel guest", "production network", "guest network",
  "employee lounge", "human resources", "sports book", "gift shop",
  "pointe restaurant", "banquet comcast", "data center", "spare production",
  "business service", "network services", "managed services", "data protection",
  "patch management", "carrier case", "dispatch services", "backup services",
  "cloud foundations", "select tier", "priority email", "quarterly true",
  "ticket integration", "shared document", "meraki portal", "live tracking",
  "high touch", "remote access", "time resolve", "escalation via",
  "logicmonitor monitoring", "allied servicedesk", "cattools monitoring", "high wire",
  "redundant appliance", "snmp configure", "logicmonitor backups"]

/-- The word list consulted by `field_replacer` before inserting a line break. -/
def field_break_words : List String :=
  ["high", "medium", "low", "critical", "the", "and", "or", "but", "with", "from", "to"]

/-- The pre-pass replacement: insert a newline between the preceding word and
the field label when the word is in `field_break_words`; otherwise return the
match unchanged. -/
def field_replacer (m : List Char) (caps : List (Nat × Nat)) : List Char :=
  match caps with
  | [s1, s2] =>
    let preceding_word := capSlice m s1
    let field_label := capSlice m s2
    if field_break_words.contains (lowerStr preceding_word) then
      preceding_word ++ '\n' :: field_label
    else m
  | _ => m

/-- One `re.sub` pass of the field-formatting loop. -/
def fieldSub (label : List Char) (t : List Char) : List Char :=
  (reSub (rmatch (fieldPat label))
    (fun _ m caps (u : Unit) => (field_replacer m caps, u)) none 0 () t).1

/-- Replacement template `\1\n\2` of the value-to-field patterns. -/
def vf_repl (m : List Char) (caps : List (Nat × Nat)) : List Char :=
  match caps with
  | [s1, s2] => capSlice m s1 ++ '\n' :: capSlice m s2
  | _ => m

/-- The alternation `High|Medium|Low|Critical`. -/
def sevAlt : RM :=
  ralt (rlit "High".data) (ralt (rlit "Medium".data) (ralt (rlit "Low".data) (rlit "Critical".data)))

/-- The pattern `[A-Z][a-z]+ [A-Z][a-z]+` used inside two of the value patterns. -/
def twoCapWords : RM :=
  rseq (rcls isUpperC) (rseq (rclsRep isLowerC 1 none)
    (rseq (rchar ' ') (rseq (rcls isUpperC) (rclsRep isLowerC 1 none))))

/-- The `value_field_patterns` list (each is substituted with `\1\n\2`). -/
def value_field_patterns : List RM :=
  [ rseq (rcap sevAlt) (rseq (rclsRep isSpaceC 1 none) (rcap (rlit "Responsible party:".data))),
    rseq (rcap (ralt (rlit "Presidio".data)
        (rseq (rlit "Delaware North".data) (rclsRep (fun c => c != ':') 0 none))))
      (rseq (rclsRep isSpaceC 1 none) (rcap (rlit "Urgency:".data))),
    rseq (rcap (rseq (rclsRep isDigitC 1 none) (rseq (rclsRep isSpaceC 0 none)
        (rseq (rchar '-') (rseq (rclsRep isSpaceC 0 none) sevAlt)))))
      (rseq (rclsRep isSpaceC 1 none) (rcap (rlit "Assignment group:".data))),
    rseq (rcap (ralt (rlit "MSC Network Engineer".data) twoCapWords))
      (rseq (rclsRep isSpaceC 1 none) (rcap (rlit "Customer Assignment Group:".data))),
    rseq (rcap (ralt (rlit "true".data) (rlit "false".data)))
      (rseq (rclsRep isSpaceC 1 none) (rcap (rlit "Service Offering:".data))),
    rseq (rcap (ralt (rlit "Network Services".data) twoCapWords))
      (rseq (rclsRep isSpaceC 1 none) (rcap (rlit "Category:".data))) ]

/-- One `re.sub` pass of a value-to-field pattern. -/
def valueSub (p : RM) (t : List Char) : List Char :=
  (reSub (rmatch p) (fun _ m caps (u : Unit) => (vf_repl m caps, u)) none 0 () t).1

/-! ### The name disambiguator (`name_replacer`) -/

/-- The list of technical abbreviations checked as substrings of the
lower-cased candidate. -/
def tech_substrings : List String :=
  ["vm", "srv", "app", "db", "fw", "sw", "rtr", "ws", "inc", "gewig"]

/-- The suffix list of the business-suffix gate. -/
def business_endings : List String :=
  ["ing", "tion", "ment", "ness", "ity", "ics", "ogy"]

/-- The `technical_patterns` regexes, checked with `re.match` (anchored at the
start; each carries its own `$`). -/
def technical_patterns : List RM :=
  [ rseq (rclsRep isUpperC 3 none) (rseq (rclsRep (fun c => isUpperC c || isDigitC c) 1 none) rend),
    rseq (rclsRep isLowerC 1 none) (rseq (rclsRep isDigitC 1 none)
      (rseq (rclsRep isLowerC 0 none) (rseq (rclsRep isDigitC 0 none) rend))),
    rseq (rclsRep isUpperC 1 none) (rseq (rclsRep isDigitC 1 none)
      (rseq (rclsRep isUpperC 0 none) (rseq (rclsRep isDigitC 0 none) rend))),
    rseq (rclsRep (fun c => c != '\n') 0 none) (rseq (rchar '.')
      (rseq (ralt (rlit "ad.dncinc.com".data) (rlit "prod.presidiosecure.com".data)) rend)),
    rseq (rclsRep isUpperC 2 none) (rseq (rclsRep isDigitC 2 none) rend),
    rseq (rlit "Q2".data) (rseq (rclsRep (fun c => isUpperC c || isDigitC c || c = '-') 1 none) rend),
    rseq (rclsRep isUpperC 3 (some 3)) (rseq (rclsRep isDigitC 6 (some 6)) rend) ]

/-- `re.match(pattern, s)` viewed as a Boolean (match anchored at the start). -/
def reMatchStart (p : RM) (l : List Char) : Bool :=
  !(p ⟨none, l, 0, []⟩).isEmpty

/-- Rule 1: either word, lower-cased, is a single-word business term. -/
def name_business_hit (first second : List Char) : Bool :=
  business_terms.contains (lowerStr first) || business_terms.contains (lowerStr second)

/-- Rule 2: the lower-cased full candidate is a compound business phrase. -/
def name_compound_hit (m : List Char) : Bool :=
  compound_terms.contains (lowerStr m)

/-- Rule 3: the candidate looks like a technical identifier (digit, underscore
or dot; a known tech abbreviation substring; or a `technical_patterns` shape). -/
def name_technical_hit (m : List Char) : Bool :=
  m.any isDigitC || m.contains '_' || m.contains '.' ||
    tech_substrings.any (fun t => containsSubstr t.data (lowerList m)) ||
    technical_patterns.any (fun p => reMatchStart p m)

/-- Rule 4 (morphological gate): both words at least two characters, first
letter upper, remainder lower. -/
def name_proper_case (first second : List Char) : Bool :=
  decide (2 ≤ first.length) && decide (2 ≤ second.length) &&
    (first.headD ' ').isUpper && pyIsLower (first.drop 1) &&
    (second.headD ' ').isUpper && pyIsLower (second.drop 1)

/-- Rule 5: the second word ends in a common abstract-noun suffix. -/
def name_business_ending (second : List Char) : Bool :=
  business_endings.any (fun e => e.data.isSuffixOf (lowerList second))

/-- The name disambiguator: decide PRESERVE/REDACT for a candidate `m` with
first group `g1`; on redaction, keep the first word, truncate the second to
its initial plus a period, and bump the counter (`nonlocal name_count`). -/
def name_replacer (m g1 : List Char) (cnt : Nat) : List Char × Nat :=
  let first_word := g1
  let second_word := ((pySplitWs m).getD 1 [])
  if name_business_hit first_word second_word then (m, cnt)
  else if name_compound_hit m then (m, cnt)
  else if name_technical_hit m then (m, cnt)
  else if name_proper_case first_word second_word then
    if name_business_ending second_word then (m, cnt)
    else (first_word ++ ' ' :: (second_word.headD ' ') :: ['.'], cnt + 1)
  else (m, cnt)

/-! ### The statistics record -/

/-- The `redaction_stats` dictionary: one integer counter per key, in the
insertion order of the source. -/
structure Stats where
  ip_addresses : Nat
  mac_addresses : Nat
  phone_numbers : Nat
  email_addresses : Nat
  employee_ids : Nat
  imei_numbers : Nat
  account_numbers : Nat
  urls : Nat
  run_by_fields : Nat
  names_truncated : Nat
  total_redactions : Nat
deriving DecidableEq, Repr

/-- The dictionary keys, in insertion order. -/
def stats_keys : List String :=
  ["ip_addresses", "mac_addresses", "phone_numbers", "email_addresses",
   "employee_ids", "imei_numbers", "account_numbers", "urls",
   "run_by_fields", "names_truncated", "total_redactions"]

/-- `redaction_stats.values()`, in the same insertion order. -/
def statsValues (s : Stats) : List Nat :=
  [s.ip_addresses, s.mac_addresses, s.phone_numbers, s.email_addresses,
   s.employee_ids, s.imei_numbers, s.account_numbers, s.urls,
   s.run_by_fields, s.names_truncated, s.total_redactions]

/-- The dictionary itself, as an association list. -/
def statsAssoc (s : Stats) : List (String × Nat) :=
  stats_keys.zip (statsValues s)

/-! ### The substitution stages -/

/-- The private/internal string prefixes used when counting IP redactions
(`ip.startswith(('10.', '172.', '192.168.'))`). -/
def ip_internal_prefixes : List (List Char) :=
  ["10.".data, "172.".data, "192.168.".data]

/-- The IP replacement policy: split the match on dots and preserve
`10.x.x.x`, `172.16-31.x.x` and `192.168.x.x`; everything else (and any
parse failure) becomes the sentinel. -/
def ip_replacer (ip : List Char) : List Char :=
  let parts := pySplitOn '.' ip
  if parts.length = 4 then
    match parseIntPy (parts.getD 0 []), parseIntPy (parts.getD 1 []) with
    | some first_octet, some second_octet =>
      if first_octet = 10 ∨ (first_octet = 172 ∧ 16 ≤ second_octet ∧ second_octet ≤ 31)
          ∨ (first_octet = 192 ∧ second_octet = 168) then ip
      else "[REDACTED IP]".data
    | _, _ => "[REDACTED IP]".data
  else "[REDACTED IP]".data

/-- IP stage: substitute via `ip_replacer`; the counter counts the matches
whose text does not start with an `ip_internal_prefixes` entry (the source
computes this count from `findall` over the same text before substituting;
the two scans visit the same leftmost non-overlapping matches, fused here). -/
def ipStage (t : List Char) : List Char × Nat :=
  reSub (rmatch ipPat)
    (fun _ m _ cnt =>
      (ip_replacer m, if ip_internal_prefixes.any (fun p => p.isPrefixOf m) then cnt else cnt + 1))
    none 0 0 t

/-- A `findall`-count plus sentinel `sub` stage (the source counts before
substituting; both passes visit the same matches, fused into one scan). -/
def countSub (pat : RM) (sentinel : List Char) (t : List Char) : List Char × Nat :=
  reSub (rmatch pat) (fun _ _ _ cnt => (sentinel, cnt + 1)) none 0 0 t

/-- The phone replacement with contextual look-back into the pre-substitution
text (the source closure reads `text`, which at substitution time is still
the text the phone pass runs on). -/
def phone_replacer (text : List Char) (start_pos : Nat) (m : List Char) (cnt : Nat) :
    List Char × Nat :=
  if start_pos > 0 then
    let preceding_text := lowerList ((text.take start_pos).drop (start_pos - 15))
    if "6-".data.isSuffixOf preceding_text && decide (m.length = 10) && pyIsDigit m then
      (m, cnt)
    else if preceding_text.contains '#' then (m, cnt)
    else ("[REDACTED PHONE]".data, cnt + 1)
  else ("[REDACTED PHONE]".data, cnt + 1)

/-- Phone stage (the source's `re.findall(phone_pattern, text)` result is
never used — the counter is the closure-incremented `actual_phone_redactions`
— so only the `re.sub` scan is embedded). -/
def phoneStage (t : List Char) : List Char × Nat :=
  reSub (rmatch phonePat) (fun start m _ cnt => phone_replacer t start m cnt) none 0 0 t

/-- Run-By stage: replace each match with `\1[REDACTED]` and count the
matches. -/
def runByStage (t : List Char) : List Char × Nat :=
  reSub (rmatch runByPat)
    (fun _ m caps cnt =>
      (match caps with
       | [s1] => capSlice m s1 ++ "[REDACTED]".data
       | _ => m, cnt + 1))
    none 0 0 t

/-- Names stage: run `name_replacer` over every candidate, threading the
`name_count` counter. -/
def namesStage (t : List Char) : List Char × Nat :=
  reSub (rmatch namesPat)
    (fun _ m caps cnt =>
      match caps with
      | [s1, _] => name_replacer m (capSlice m s1) cnt
      | _ => (m, cnt))
    none 0 0 t

/-! ### The full pass -/

/-- `redact_sensitive` over a character list: the ServiceNow formatting
pre-pass, the substitution stages in source order, then the statistics record
with `total_redactions = sum(values()) - total_redactions` computed at the
very end. -/
def redactChars (text0 : List Char) : List Char × Stats :=
  let t1 := servicenow_fields.foldl (fun tx f => fieldSub f.data tx) text0
  let t2 := value_field_patterns.foldl (fun tx p => valueSub p tx) t1
  let rIp := ipStage t2
  let rMac := countSub macPat "[REDACTED MAC]".data rIp.1
  let rPhone := phoneStage rMac.1
  let rEmail := countSub emailPat "[REDACTED EMAIL]".data rPhone.1
  let rEmp := countSub employeePat "[REDACTED EMPLOYEE ID]".data rEmail.1
  let rImei := countSub imeiPat "IMEI#[REDACTED]".data rEmp.1
  let rAcct := countSub accountPat "Account [REDACTED]".data rImei.1
  let rUrl := countSub urlPat "[REDACTED URL]".data rAcct.1
  let rRunBy := runByStage rUrl.1
  let rNames := namesStage rRunBy.1
  let stats0 : Stats :=
    { ip_addresses := rIp.2, mac_addresses := rMac.2, phone_numbers := rPhone.2,
      email_addresses := rEmail.2, employee_ids := rEmp.2, imei_numbers := rImei.2,
      account_numbers := rAcct.2, urls := rUrl.2, run_by_fields := rRunBy.2,
      names_truncated := rNames.2, total_redactions := 0 }
  let stats : Stats :=
    { stats0 with total_redactions := (statsValues stats0).sum - stats0.total_redactions }
  (rNames.1, stats)

/-- `redact_sensitive` on strings. -/
def redact_sensitive (text : String) : String × Stats :=
  let r := redactChars text.data
  (String.mk r.1, r.2)

/-! ## Helper lemmas -/

theorem pySplitOn_sep_notin (sep : Char) (xs : List Char) (h : sep ∉ xs) :
    pySplitOn sep xs = [xs] := by
  induction xs with
  | nil => rfl
  | cons c cs ih =>
    simp only [List.mem_cons, not_or] at h
    simp only [pySplitOn]
    rw [if_neg (fun hc => h.1 hc.symm), ih h.2]

theorem pySplitOn_append (sep : Char) (xs ys : List Char) (h : sep ∉ xs) :
    pySplitOn sep (xs ++ sep :: ys) = xs :: pySplitOn sep ys := by
  induction xs with
  | nil => simp [pySplitOn]
  | cons c cs ih =>
    simp only [List.mem_cons, not_or] at h
    simp only [List.cons_append, pySplitOn]
    rw [if_neg (fun hc => h.1 hc.symm)]
    simp only [List.append_eq]
    rw [ih h.2]

theorem dot_notin_of_digits (g : List Char) (h : g.all isDigitC = true) : '.' ∉ g := by
  intro hm
  have := List.all_eq_true.mp h _ hm
  exact absurd this (by decide)

theorem clsStatesAux_stop (p : Char → Bool) (prev : Option Char) (pos : Nat)
    (caps : List (Nat × Nat)) (c : Char) (cs : List Char) (h : p c = false) :
    clsStatesAux p prev pos caps (c :: cs) = [⟨prev, c :: cs, pos, caps⟩] := by
  simp [clsStatesAux, h]

theorem clsStatesAux_reverse_head (p : Char → Bool) :
    ∀ (v : List Char) (prev : Option Char) (pos : Nat) (caps : List (Nat × Nat)),
      (∀ x ∈ v, p x = true) →
      ∃ pr, (clsStatesAux p prev pos caps v).reverse.head? =
        some ⟨pr, [], pos + v.length, caps⟩ := by
  intro v
  induction v with
  | nil =>
    intro prev pos caps _
    exact ⟨prev, by simp [clsStatesAux]⟩
  | cons c cs ih =>
    intro prev pos caps h
    have hc : p c = true := h c (List.mem_cons_self _ _)
    obtain ⟨pr, ih'⟩ := ih (some c) (pos + 1) caps (fun x hx => h x (List.mem_cons_of_mem _ hx))
    refine ⟨pr, ?_⟩
    simp only [clsStatesAux, hc, if_true, List.reverse_cons]
    rcases hrev : (clsStatesAux p (some c) (pos + 1) caps cs).reverse with _ | ⟨z, zs⟩
    · rw [hrev] at ih'
      simp at ih'
    · rw [hrev] at ih'
      simp only [List.head?_cons, Option.some_inj] at ih'
      simp [ih']
      omega

theorem reSubGo_skip_all {σ : Type} (tryM : Option Char → List Char → Option MRes)
    (repl : Nat → List Char → List (Nat × Nat) → σ → List Char × σ) (s : σ) :
    ∀ (l : List Char) (prev : Option Char) (pos : Nat),
      reSubGo tryM repl l.length prev pos s l = ([], s) := by
  intro l
  induction l with
  | nil => intro prev pos; rfl
  | cons c cs ih =>
    intro prev pos
    simp only [List.length_cons, reSubGo]
    exact ih (some c) (pos + 1)

theorem runByPat_line (v : List Char) (prev : Option Char) (hv : v ≠ [])
    (hn : ∀ x ∈ v, (x != '\n') = true)
    (hh : isSpaceC (v.headD ' ') = false) :
    rmatch runByPat prev ("Run By: ".data ++ v) = some ⟨8 + v.length, [(0, 8)]⟩ := by
  obtain ⟨c, cs, rfl⟩ := List.exists_cons_of_ne_nil hv
  simp only [List.headD_cons] at hh
  have hstar : clsStatesAux isSpaceC (some ' ') 8 [] (c :: cs) =
      [⟨some ' ', c :: cs, 8, []⟩] := clsStatesAux_stop _ _ _ _ _ _ hh
  have hinner : rcap (rseq (rlit "Run ".data) (rseq (rcls (fun x => x = 'B' || x = 'b'))
        (rseq (rchar 'y') (rseq (rclsRep isSpaceC 0 none)
          (rseq (rchar ':') (rclsRep isSpaceC 0 none))))))
        ⟨prev, "Run By: ".data ++ c :: cs, 0, []⟩ =
      [⟨some ' ', c :: cs, 8, [(0, 8)]⟩, ⟨some ':', ' ' :: c :: cs, 7, [(0, 7)]⟩] := by
    rw [show ("Run ".data : List Char) = ['R', 'u', 'n', ' '] from rfl,
      show ("Run By: ".data : List Char) = ['R', 'u', 'n', ' ', 'B', 'y', ':', ' '] from rfl]
    simp [rseq, rcap, rlit, rchar, rcls, rclsRep, clsStatesAux, hstar, hh,
      show isSpaceC ' ' = true from rfl, show isSpaceC ':' = false from rfl]
  unfold rmatch runByPat
  simp only [rseq] at hinner ⊢
  rw [hinner]
  simp only [List.flatMap_cons, List.flatMap_nil, List.append_nil]
  have hL : ∃ pr, (clsStatesAux (fun x => x != '\n') (some c) 9 [(0, 8)] cs).reverse.head? =
      some ⟨pr, [], 9 + cs.length, [(0, 8)]⟩ :=
    clsStatesAux_reverse_head _ cs (some c) 9 [(0, 8)]
      (fun x hx => hn x (List.mem_cons_of_mem _ hx))
  obtain ⟨pr, hL⟩ := hL
  have hcnl : (c != '\n') = true := hn c (List.mem_cons_self _ _)
  have hvalA : rclsRep (fun x => x != '\n') 1 none ⟨some ' ', c :: cs, 8, [(0, 8)]⟩ =
      (clsStatesAux (fun x => x != '\n') (some c) 9 [(0, 8)] cs).reverse := by
    simp only [rclsRep, clsStatesAux, hcnl, if_true]
    simp
  rw [hvalA]
  rcases hrev : (clsStatesAux (fun x => x != '\n') (some c) 9 [(0, 8)] cs).reverse
      with _ | ⟨z, zs⟩
  · rw [hrev] at hL
    simp at hL
  · rw [hrev] at hL
    simp only [List.head?_cons, Option.some_inj] at hL
    simp only [List.cons_append, hL]
    simp
    omega

theorem runByStage_line (v : List Char) (hv : v ≠ [])
    (hn : ∀ x ∈ v, (x != '\n') = true)
    (hh : isSpaceC (v.headD ' ') = false) :
    runByStage ("Run By: ".data ++ v) = ("Run By: [REDACTED]".data, 1) := by
  have hm := runByPat_line v none hv hn hh
  rw [Nat.add_comm] at hm
  unfold runByStage reSub
  rw [show ("Run By: ".data ++ v) = 'R' :: ("un By: ".data ++ v) from rfl] at hm ⊢
  simp only [reSubGo, hm]
  rw [show ("un By: ".data ++ v) = 'u' :: 'n' :: ' ' :: 'B' :: 'y' :: ':' :: ' ' :: v from rfl]
  simp only [List.take_succ_cons, List.take_length, List.drop_zero, capSlice,
    List.take_zero, List.nil_append, List.append_nil,
    show ∀ w : List Char, ([] : List Char).append w = w from fun _ => rfl]
  rw [reSubGo_skip_all]
  simp

/-! ## The claims -/

/-- Claim C1: for every input text, the `total_redactions` counter of the
returned statistics equals the sum of the ten category counters, the sum being
taken once at the very end of the pass. -/
theorem total_redactions_is_sum (t : String) :
    (redact_sensitive t).2.total_redactions =
      (redact_sensitive t).2.ip_addresses + (redact_sensitive t).2.mac_addresses
      + (redact_sensitive t).2.phone_numbers + (redact_sensitive t).2.email_addresses
      + (redact_sensitive t).2.employee_ids + (redact_sensitive t).2.imei_numbers
      + (redact_sensitive t).2.account_numbers + (redact_sensitive t).2.urls
      + (redact_sensitive t).2.run_by_fields + (redact_sensitive t).2.names_truncated := by
  simp only [redact_sensitive, redactChars, statsValues]
  simp only [List.sum_cons, List.sum_nil]
  omega

/-- Claim C9: the engine is a total function of the input string (the
embedding is a total Lean function by construction), and on the empty string
it returns the empty string with every counter zero. -/
theorem redact_total_on_empty :
    redact_sensitive "" =
      ("", { ip_addresses := 0, mac_addresses := 0, phone_numbers := 0, email_addresses := 0,
             employee_ids := 0, imei_numbers := 0, account_numbers := 0, urls := 0,
             run_by_fields := 0, names_truncated := 0, total_redactions := 0 }) := by decide

/-- Claim C8 (counterexample): the statistics record's field names do not
include `names_redacted`; the claimed key list is not the record's key list. -/
theorem stats_keys_not_names_redacted :
    "names_redacted" ∉ (statsAssoc (redact_sensitive "").2).map Prod.fst ∧
    (statsAssoc (redact_sensitive "").2).map Prod.fst ≠
      ["ip_addresses", "mac_addresses", "phone_numbers", "email_addresses", "employee_ids",
       "imei_numbers", "account_numbers", "urls", "names_redacted", "run_by_fields",
       "total_redactions"] := by decide

/-- Claim C8 (amended): the statistics record has exactly eleven fields, named
`ip_addresses, mac_addresses, phone_numbers, email_addresses, employee_ids,
imei_numbers, account_numbers, urls, run_by_fields, names_truncated,
total_redactions` (the names counter is `names_truncated`, not
`names_redacted`). -/
theorem stats_keys_exact (s : Stats) :
    (statsAssoc s).map Prod.fst =
      ["ip_addresses", "mac_addresses", "phone_numbers", "email_addresses", "employee_ids",
       "imei_numbers", "account_numbers", "urls", "run_by_fields", "names_truncated",
       "total_redactions"] ∧
    (statsAssoc s).length = 11 := ⟨rfl, rfl⟩

theorem consuming_rchar (c : Char) : Consuming (rchar c) := by
  intro st st' h
  unfold rchar at h
  split at h
  next x xs heq =>
    split at h
    · simp at h
      subst h
      rw [heq]
      exact List.suffix_cons x xs
    · simp at h
  next heq => simp at h

theorem consuming_rcls (p : Char → Bool) : Consuming (rcls p) := by
  intro st st' h
  unfold rcls at h
  split at h
  next x xs heq =>
    split at h
    · simp at h
      subst h
      rw [heq]
      exact List.suffix_cons x xs
    · simp at h
  next heq => simp at h

theorem consuming_rlit (l : List Char) : Consuming (rlit l) := by
  induction l with
  | nil =>
    intro st st' h
    simp [rlit] at h
    subst h
    exact List.suffix_refl _
  | cons c cs ih =>
    intro st st' h
    simp only [rlit, List.mem_flatMap] at h
    obtain ⟨stm, hm, h'⟩ := h
    exact (ih stm st' h').trans (consuming_rchar c st stm hm)

theorem consuming_rseq (a b : RM) (ha : Consuming a) (hb : Consuming b) :
    Consuming (rseq a b) := by
  intro st st' h
  simp only [rseq, List.mem_flatMap] at h
  obtain ⟨stm, hm, h'⟩ := h
  exact (hb stm st' h').trans (ha st stm hm)

theorem consuming_ralt (a b : RM) (ha : Consuming a) (hb : Consuming b) :
    Consuming (ralt a b) := by
  intro st st' h
  rcases List.mem_append.mp h with h' | h'
  · exact ha st st' h'
  · exact hb st st' h'

theorem consuming_ropt (a : RM) (ha : Consuming a) : Consuming (ropt a) := by
  intro st st' h
  rcases List.mem_append.mp h with h' | h'
  · exact ha st st' h'
  · simp at h'
    subst h'
    exact List.suffix_refl _

theorem consuming_rbnd : Consuming rbnd := by
  intro st st' h
  simp only [rbnd] at h
  split at h
  · simp at h
    subst h
    exact List.suffix_refl _
  · simp at h

theorem consuming_rend : Consuming rend := by
  intro st st' h
  unfold rend at h
  split at h
  · simp at h
    subst h
    exact List.suffix_refl _
  · split at h
    · simp at h
      subst h
      exact List.suffix_refl _
    · simp at h
  · simp at h

theorem clsStatesAux_rest_suffix (p : Char → Bool) :
    ∀ (l : List Char) (prev : Option Char) (pos : Nat) (caps : List (Nat × Nat)) st',
      st' ∈ clsStatesAux p prev pos caps l → st'.rest <:+ l := by
  intro l
  induction l with
  | nil =>
    intro prev pos caps st' h
    simp [clsStatesAux] at h
    subst h
    exact List.suffix_refl _
  | cons c cs ih =>
    intro prev pos caps st' h
    simp only [clsStatesAux, List.mem_cons] at h
    rcases h with h | h
    · subst h
      exact List.suffix_refl _
    · split at h
      · exact ((ih _ _ _ st' h).trans (List.suffix_cons c cs))
      · simp at h

theorem consuming_rclsRep (p : Char → Bool) (lo : Nat) (hi : Option Nat) :
    Consuming (rclsRep p lo hi) := by
  intro st st' h
  unfold rclsRep at h
  rw [List.mem_reverse] at h
  have h' := List.mem_of_mem_drop h
  have h'' : st' ∈ clsStatesAux p st.prev st.pos st.caps st.rest := by
    cases hi with
    | none => exact h'
    | some n => exact List.mem_of_mem_take h'
  exact clsStatesAux_rest_suffix p st.rest st.prev st.pos st.caps st' h''

theorem consuming_rrep (a : RM) (ha : Consuming a) : ∀ n, Consuming (rrep a n) := by
  intro n
  induction n with
  | zero =>
    intro st st' h
    simp [rrep] at h
    subst h
    exact List.suffix_refl _
  | succ k ih => exact consuming_rseq a (rrep a k) ha ih

theorem consuming_rcap (a : RM) (ha : Consuming a) : Consuming (rcap a) := by
  intro st st' h
  simp only [rcap, List.mem_map] at h
  obtain ⟨stm, hm, h'⟩ := h
  have := ha st stm hm
  subst h'
  exact this

theorem rlit_isPrefix (l : List Char) :
    ∀ st st', st' ∈ rlit l st → l.isPrefixOf st.rest = true := by
  induction l with
  | nil =>
    intro st st' _
    simp [List.isPrefixOf]
  | cons c cs ih =>
    intro st st' h
    simp only [rlit, List.mem_flatMap] at h
    obtain ⟨stm, hm, h'⟩ := h
    unfold rchar at hm
    split at hm
    next x xs heq =>
      split at hm
      next hx =>
        simp at hm
        subst hm
        have hpre := ih _ st' h'
        rw [heq]
        simp only [List.isPrefixOf]
        subst hx
        simp [hpre]
      · simp at hm
    next heq => simp at hm

theorem containsSubstr_of_prefix_suffix (n l l' : List Char) (hs : l' <:+ l)
    (hp : n.isPrefixOf l' = true) : containsSubstr n l = true := by
  induction l with
  | nil =>
    have : l' = [] := List.eq_nil_of_suffix_nil hs
    subst this
    cases n with
    | nil => rfl
    | cons a as => simp [List.isPrefixOf] at hp
  | cons c cs ih =>
    rcases List.suffix_cons_iff.mp hs with h | h
    · subst h
      simp [containsSubstr, hp]
    · simp [containsSubstr, ih h]

theorem rmatch_label_tail_none (X S : RM) (hX : Consuming X) (hS : Consuming S)
    (label t : List Char) (hns : containsSubstr label t = false) :
    ∀ (prev : Option Char) (l : List Char), l <:+ t →
      rmatch (rseq (rcap X) (rseq S (rcap (rlit label)))) prev l = none := by
  intro prev l hl
  unfold rmatch
  cases hres : rseq (rcap X) (rseq S (rcap (rlit label))) ⟨prev, l, 0, []⟩ with
  | nil => rfl
  | cons st rest =>
    exfalso
    have hmem : st ∈ rseq (rcap X) (rseq S (rcap (rlit label))) ⟨prev, l, 0, []⟩ := by
      rw [hres]; exact List.mem_cons_self st rest
    simp only [rseq, List.mem_flatMap] at hmem
    obtain ⟨st1, h1, st2, h2, h3⟩ := hmem
    simp only [rcap, List.mem_map] at h3
    obtain ⟨st3, h3, _⟩ := h3
    have hpre := rlit_isPrefix label st2 st3 h3
    have hsuf2 : st2.rest <:+ l :=
      (hS st1 st2 h2).trans (consuming_rcap X hX ⟨prev, l, 0, []⟩ st1 h1)
    have := containsSubstr_of_prefix_suffix label t st2.rest (hsuf2.trans hl) hpre
    rw [hns] at this
    exact absurd this (by decide)

theorem reSubGo_none {σ : Type} (tryM : Option Char → List Char → Option MRes)
    (repl : Nat → List Char → List (Nat × Nat) → σ → List Char × σ) (s : σ) :
    ∀ (t : List Char) (prev : Option Char) (pos : Nat),
      (∀ (p : Option Char) (l : List Char), l <:+ t → tryM p l = none) →
      reSubGo tryM repl 0 prev pos s t = (t, s) := by
  intro t
  induction t with
  | nil => intro prev pos _; rfl
  | cons c cs ih =>
    intro prev pos h
    have h0 : tryM prev (c :: cs) = none := h prev (c :: cs) (List.suffix_refl _)
    simp only [reSubGo, h0]
    rw [ih (some c) (pos + 1) (fun p l hl => h p l (hl.trans (List.suffix_cons c cs)))]

theorem fieldSub_id (label t : List Char) (h : containsSubstr label t = false) :
    fieldSub label t = t := by
  unfold fieldSub reSub fieldPat
  rw [reSubGo_none _ _ _ t none 0
    (rmatch_label_tail_none (rclsRep isWordC 1 none) (rclsRep isSpaceC 1 none)
      (consuming_rclsRep _ _ _) (consuming_rclsRep _ _ _) label t h)]

theorem fieldFold_id (labels : List String) (t : List Char)
    (h : labels.all (fun f => !containsSubstr f.data t) = true) :
    labels.foldl (fun tx f => fieldSub f.data tx) t = t := by
  induction labels with
  | nil => rfl
  | cons l ls ih =>
    simp only [List.all_cons, Bool.and_eq_true, Bool.not_eq_true'] at h
    simp only [List.foldl_cons, fieldSub_id l.data t h.1]
    exact ih (by simpa using h.2)

theorem valueSub_id (X : RM) (hX : Consuming X) (label t : List Char)
    (h : containsSubstr label t = false) :
    valueSub (rseq (rcap X) (rseq (rclsRep isSpaceC 1 none) (rcap (rlit label)))) t = t := by
  unfold valueSub reSub
  rw [reSubGo_none _ _ _ t none 0
    (rmatch_label_tail_none X (rclsRep isSpaceC 1 none) hX (consuming_rclsRep _ _ _) label t h)]

theorem valueFold_id (t : List Char)
    (h : (["Responsible party:", "Urgency:", "Assignment group:",
      "Customer Assignment Group:", "Service Offering:", "Category:"].all
      (fun f => !containsSubstr f.data t)) = true) :
    value_field_patterns.foldl (fun tx q => valueSub q tx) t = t := by
  simp only [List.all_cons, List.all_nil, Bool.and_eq_true, Bool.not_eq_true',
    and_true] at h
  obtain ⟨h1, h2, h3, h4, h5, h6⟩ := h
  have c2 : Consuming (ralt (rlit "Presidio".data)
      (rseq (rlit "Delaware North".data) (rclsRep (fun c => c != ':') 0 none))) :=
    consuming_ralt _ _ (consuming_rlit _)
      (consuming_rseq _ _ (consuming_rlit _) (consuming_rclsRep _ _ _))
  have c1 : Consuming sevAlt :=
    consuming_ralt _ _ (consuming_rlit _) (consuming_ralt _ _ (consuming_rlit _)
      (consuming_ralt _ _ (consuming_rlit _) (consuming_rlit _)))
  have c3 : Consuming (rseq (rclsRep isDigitC 1 none) (rseq (rclsRep isSpaceC 0 none)
      (rseq (rchar '-') (rseq (rclsRep isSpaceC 0 none) sevAlt)))) :=
    consuming_rseq _ _ (consuming_rclsRep _ _ _) (consuming_rseq _ _ (consuming_rclsRep _ _ _)
      (consuming_rseq _ _ (consuming_rchar _) (consuming_rseq _ _ (consuming_rclsRep _ _ _) c1)))
  have ctw : Consuming twoCapWords :=
    consuming_rseq _ _ (consuming_rcls _) (consuming_rseq _ _ (consuming_rclsRep _ _ _)
      (consuming_rseq _ _ (consuming_rchar _) (consuming_rseq _ _ (consuming_rcls _)
        (consuming_rclsRep _ _ _))))
  have c4 : Consuming (ralt (rlit "MSC Network Engineer".data) twoCapWords) :=
    consuming_ralt _ _ (consuming_rlit _) ctw
  have c5 : Consuming (ralt (rlit "true".data) (rlit "false".data)) :=
    consuming_ralt _ _ (consuming_rlit _) (consuming_rlit _)
  have c6 : Consuming (ralt (rlit "Network Services".data) twoCapWords) :=
    consuming_ralt _ _ (consuming_rlit _) ctw
  simp only [value_field_patterns, List.foldl_cons, List.foldl_nil]
  rw [valueSub_id _ c1 _ t h1, valueSub_id _ c2 _ t h2, valueSub_id _ c3 _ t h3,
    valueSub_id _ c4 _ t h4, valueSub_id _ c5 _ t h5, valueSub_id _ c6 _ t h6]

/-- Claim C2 (counterexample): the full substitution pass is not idempotent on
the text: on `"ref#myemail@x.com 5551234567"` the first pass preserves the phone
number (a `#` sits in its 15-character look-back window) but rewrites the
email before it, so the second pass no longer sees the `#` and redacts the
phone number. -/
theorem redact_not_idempotent :
    (redact_sensitive (redact_sensitive "ref#myemail@x.com 5551234567").1).1
      ≠ (redact_sensitive "ref#myemail@x.com 5551234567").1 := by
  have eA : redact_sensitive "ref#myemail@x.com 5551234567" = ("ref#[REDACTED EMAIL] 5551234567", { ip_addresses := 0, mac_addresses := 0, phone_numbers := 0, email_addresses := 1, employee_ids := 0, imei_numbers := 0, account_numbers := 0, urls := 0, run_by_fields := 0, names_truncated := 0, total_redactions := 1 }) := by
    have a1 : servicenow_fields.foldl (fun tx f => fieldSub f.data tx) "ref#myemail@x.com 5551234567".data = "ref#myemail@x.com 5551234567".data :=
      fieldFold_id servicenow_fields "ref#myemail@x.com 5551234567".data (by decide)
    have a2 : value_field_patterns.foldl (fun tx q => valueSub q tx) "ref#myemail@x.com 5551234567".data = "ref#myemail@x.com 5551234567".data :=
      valueFold_id "ref#myemail@x.com 5551234567".data (by decide)
    have a3 : ipStage "ref#myemail@x.com 5551234567".data = ("ref#myemail@x.com 5551234567".data, 0) := by decide
    have a4 : countSub macPat "[REDACTED MAC]".data "ref#myemail@x.com 5551234567".data = ("ref#myemail@x.com 5551234567".data, 0) := by decide
    have a5 : phoneStage "ref#myemail@x.com 5551234567".data = ("ref#myemail@x.com 5551234567".data, 0) := by decide
    have a6 : countSub emailPat "[REDACTED EMAIL]".data "ref#myemail@x.com 5551234567".data = ("ref#[REDACTED EMAIL] 5551234567".data, 1) := by decide
    have a7 : countSub employeePat "[REDACTED EMPLOYEE ID]".data "ref#[REDACTED EMAIL] 5551234567".data = ("ref#[REDACTED EMAIL] 5551234567".data, 0) := by decide
    have a8 : countSub imeiPat "IMEI#[REDACTED]".data "ref#[REDACTED EMAIL] 5551234567".data = ("ref#[REDACTED EMAIL] 5551234567".data, 0) := by decide
    have a9 : countSub accountPat "Account [REDACTED]".data "ref#[REDACTED EMAIL] 5551234567".data = ("ref#[REDACTED EMAIL] 5551234567".data, 0) := by decide
    have a10 : countSub urlPat "[REDACTED URL]".data "ref#[REDACTED EMAIL] 5551234567".data = ("ref#[REDACTED EMAIL] 5551234567".data, 0) := by decide
    have a11 : runByStage "ref#[REDACTED EMAIL] 5551234567".data = ("ref#[REDACTED EMAIL] 5551234567".data, 0) := by decide
    have a12 : namesStage "ref#[REDACTED EMAIL] 5551234567".data = ("ref#[REDACTED EMAIL] 5551234567".data, 0) := by decide
    simp only [redact_sensitive, redactChars, a1, a2, a3, a4, a5, a6, a7, a8, a9, a10, a11, a12]
    decide
  have eB : redact_sensitive "ref#[REDACTED EMAIL] 5551234567" = ("ref#[REDACTED EMAIL] [REDACTED PHONE]", { ip_addresses := 0, mac_addresses := 0, phone_numbers := 1, email_addresses := 0, employee_ids := 0, imei_numbers := 0, account_numbers := 0, urls := 0, run_by_fields := 0, names_truncated := 0, total_redactions := 1 }) := by
    have b1 : servicenow_fields.foldl (fun tx f => fieldSub f.data tx) "ref#[REDACTED EMAIL] 5551234567".data = "ref#[REDACTED EMAIL] 5551234567".data :=
      fieldFold_id servicenow_fields "ref#[REDACTED EMAIL] 5551234567".data (by decide)
    have b2 : value_field_patterns.foldl (fun tx q => valueSub q tx) "ref#[REDACTED EMAIL] 5551234567".data = "ref#[REDACTED EMAIL] 5551234567".data :=
      valueFold_id "ref#[REDACTED EMAIL] 5551234567".data (by decide)
    have b3 : ipStage "ref#[REDACTED EMAIL] 5551234567".data = ("ref#[REDACTED EMAIL] 5551234567".data, 0) := by decide
    have b4 : countSub macPat "[REDACTED MAC]".data "ref#[REDACTED EMAIL] 5551234567".data = ("ref#[REDACTED EMAIL] 5551234567".data, 0) := by decide
    have b5 : phoneStage "ref#[REDACTED EMAIL] 5551234567".data = ("ref#[REDACTED EMAIL] [REDACTED PHONE]".data, 1) := by decide
    have b6 : countSub emailPat "[REDACTED EMAIL]".data "ref#[REDACTED EMAIL] [REDACTED PHONE]".data = ("ref#[REDACTED EMAIL] [REDACTED PHONE]".data, 0) := by decide
    have b7 : countSub employeePat "[REDACTED EMPLOYEE ID]".data "ref#[REDACTED EMAIL] [REDACTED PHONE]".data = ("ref#[REDACTED EMAIL] [REDACTED PHONE]".data, 0) := by decide
    have b8 : countSub imeiPat "IMEI#[REDACTED]".data "ref#[REDACTED EMAIL] [REDACTED PHONE]".data = ("ref#[REDACTED EMAIL] [REDACTED PHONE]".data, 0) := by decide
    have b9 : countSub accountPat "Account [REDACTED]".data "ref#[REDACTED EMAIL] [REDACTED PHONE]".data = ("ref#[REDACTED EMAIL] [REDACTED PHONE]".data, 0) := by decide
    have b10 : countSub urlPat "[REDACTED URL]".data "ref#[REDACTED EMAIL] [REDACTED PHONE]".data = ("ref#[REDACTED EMAIL] [REDACTED PHONE]".data, 0) := by decide
    have b11 : runByStage "ref#[REDACTED EMAIL] [REDACTED PHONE]".data = ("ref#[REDACTED EMAIL] [REDACTED PHONE]".data, 0) := by decide
    have b12 : namesStage "ref#[REDACTED EMAIL] [REDACTED PHONE]".data = ("ref#[REDACTED EMAIL] [REDACTED PHONE]".data, 0) := by decide
    simp only [redact_sensitive, redactChars, b1, b2, b3, b4, b5, b6, b7, b8, b9, b10, b11, b12]
    decide
  rw [eA]
  show (redact_sensitive "ref#[REDACTED EMAIL] 5551234567").1 ≠ "ref#[REDACTED EMAIL] 5551234567"
  rw [eB]
  decide

/-- Claim C2 (amended): idempotence does hold token-wise — no sentinel token
(`[REDACTED IP]`, `[REDACTED MAC]`, `[REDACTED PHONE]`, `[REDACTED EMAIL]`,
`[REDACTED EMPLOYEE ID]`, `IMEI#[REDACTED]`, `Account [REDACTED]`,
`[REDACTED URL]`) matches any of the detector patterns, including the Run-By
and name patterns, so a second pass finds no matches inside previously
substituted tokens. -/
theorem sentinel_tokens_unmatched :
    (["[REDACTED IP]", "[REDACTED MAC]", "[REDACTED PHONE]", "[REDACTED EMAIL]",
      "[REDACTED EMPLOYEE ID]", "IMEI#[REDACTED]", "Account [REDACTED]", "[REDACTED URL]"].all
      (fun s =>
        [ipPat, macPat, phonePat, emailPat, employeePat, imeiPat, accountPat, urlPat,
         runByPat, namesPat].all (fun p => reCount p s.data == 0))) = true := by decide

/-- Claim C3: an IPv4-shaped token (four dot-separated 1-3 digit groups) is
preserved exactly when its first two octets put it in a private range
(`10.x`, `172.16-31.x`, `192.168.x`) and replaced by `[REDACTED IP]`
otherwise; in particular `10.0.0.5` is preserved and `8.8.8.8` replaced. -/
theorem ip_private_policy :
    (∀ (g1 g2 g3 g4 : List Char) (f s : Nat),
      g1 ≠ [] → g1.length ≤ 3 → g1.all isDigitC = true →
      g2 ≠ [] → g2.length ≤ 3 → g2.all isDigitC = true →
      g3 ≠ [] → g3.length ≤ 3 → g3.all isDigitC = true →
      g4 ≠ [] → g4.length ≤ 3 → g4.all isDigitC = true →
      parseIntPy g1 = some f → parseIntPy g2 = some s →
      ip_replacer (g1 ++ '.' :: (g2 ++ '.' :: (g3 ++ '.' :: g4))) =
        (if f = 10 ∨ (f = 172 ∧ 16 ≤ s ∧ s ≤ 31) ∨ (f = 192 ∧ s = 168)
         then g1 ++ '.' :: (g2 ++ '.' :: (g3 ++ '.' :: g4)) else "[REDACTED IP]".data)) ∧
    redact_sensitive "Server at 10.0.0.5 and 8.8.8.8" = ("Server at 10.0.0.5 and [REDACTED IP]", { ip_addresses := 1, mac_addresses := 0, phone_numbers := 0, email_addresses := 0, employee_ids := 0, imei_numbers := 0, account_numbers := 0, urls := 0, run_by_fields := 0, names_truncated := 0, total_redactions := 1 }) := by
  constructor
  · intro g1 g2 g3 g4 f s _ _ hd1 _ _ hd2 _ _ hd3 _ _ hd4 hf hs
    have e1 := dot_notin_of_digits g1 hd1
    have e2 := dot_notin_of_digits g2 hd2
    have e3 := dot_notin_of_digits g3 hd3
    have e4 := dot_notin_of_digits g4 hd4
    have hsplit : pySplitOn '.' (g1 ++ '.' :: (g2 ++ '.' :: (g3 ++ '.' :: g4)))
        = [g1, g2, g3, g4] := by
      rw [pySplitOn_append _ _ _ e1, pySplitOn_append _ _ _ e2, pySplitOn_append _ _ _ e3,
        pySplitOn_sep_notin _ _ e4]
    simp only [ip_replacer, hsplit, List.length_cons, List.length_nil, List.getD, List.get?,
      Option.getD, hf, hs]
    simp
  ·
    have c1 : servicenow_fields.foldl (fun tx f => fieldSub f.data tx) "Server at 10.0.0.5 and 8.8.8.8".data = "Server at 10.0.0.5 and 8.8.8.8".data :=
      fieldFold_id servicenow_fields "Server at 10.0.0.5 and 8.8.8.8".data (by decide)
    have c2 : value_field_patterns.foldl (fun tx q => valueSub q tx) "Server at 10.0.0.5 and 8.8.8.8".data = "Server at 10.0.0.5 and 8.8.8.8".data :=
      valueFold_id "Server at 10.0.0.5 and 8.8.8.8".data (by decide)
    have c3 : ipStage "Server at 10.0.0.5 and 8.8.8.8".data = ("Server at 10.0.0.5 and [REDACTED IP]".data, 1) := by decide
    have c4 : countSub macPat "[REDACTED MAC]".data "Server at 10.0.0.5 and [REDACTED IP]".data = ("Server at 10.0.0.5 and [REDACTED IP]".data, 0) := by decide
    have c5 : phoneStage "Server at 10.0.0.5 and [REDACTED IP]".data = ("Server at 10.0.0.5 and [REDACTED IP]".data, 0) := by decide
    have c6 : countSub emailPat "[REDACTED EMAIL]".data "Server at 10.0.0.5 and [REDACTED IP]".data = ("Server at 10.0.0.5 and [REDACTED IP]".data, 0) := by decide
    have c7 : countSub employeePat "[REDACTED EMPLOYEE ID]".data "Server at 10.0.0.5 and [REDACTED IP]".data = ("Server at 10.0.0.5 and [REDACTED IP]".data, 0) := by decide
    have c8 : countSub imeiPat "IMEI#[REDACTED]".data "Server at 10.0.0.5 and [REDACTED IP]".data = ("Server at 10.0.0.5 and [REDACTED IP]".data, 0) := by decide
    have c9 : countSub accountPat "Account [REDACTED]".data "Server at 10.0.0.5 and [REDACTED IP]".data = ("Server at 10.0.0.5 and [REDACTED IP]".data, 0) := by decide
    have c10 : countSub urlPat "[REDACTED URL]".data "Server at 10.0.0.5 and [REDACTED IP]".data = ("Server at 10.0.0.5 and [REDACTED IP]".data, 0) := by decide
    have c11 : runByStage "Server at 10.0.0.5 and [REDACTED IP]".data = ("Server at 10.0.0.5 and [REDACTED IP]".data, 0) := by decide
    have c12 : namesStage "Server at 10.0.0.5 and [REDACTED IP]".data = ("Server at 10.0.0.5 and [REDACTED IP]".data, 0) := by decide
    simp only [redact_sensitive, redactChars, c1, c2, c3, c4, c5, c6, c7, c8, c9, c10, c11, c12]
    decide

/-- Witness for `ip_private_policy`: the private address `10.0.0.5` is kept. -/
theorem ip_private_policy_witness :
    ip_replacer ("10".data ++ '.' :: ("0".data ++ '.' :: ("0".data ++ '.' :: "5".data)))
      = "10".data ++ '.' :: ("0".data ++ '.' :: ("0".data ++ '.' :: "5".data)) := by
  rw [ip_private_policy.1 "10".data "0".data "0".data "5".data 10 0
    (by decide) (by decide) (by decide) (by decide) (by decide) (by decide)
    (by decide) (by decide) (by decide) (by decide) (by decide) (by decide)
    (by decide) (by decide)]
  decide

/-- Claim C4 (counterexample): `172.40.0.1` is outside `172.16.0.0/12`, so the
substitution replaces it with the sentinel, yet the `ip_addresses` counter —
computed with a string-prefix test that treats every `172.`-prefixed match as
internal — stays 0, contradicting "counter = number of tokens replaced". -/
theorem ip_count_mismatch :
    (redact_sensitive "172.40.0.1").1 = "[REDACTED IP]" ∧
    (redact_sensitive "172.40.0.1").2.ip_addresses = 0 := by
  have eA : redact_sensitive "172.40.0.1" = ("[REDACTED IP]", { ip_addresses := 0, mac_addresses := 0, phone_numbers := 0, email_addresses := 0, employee_ids := 0, imei_numbers := 0, account_numbers := 0, urls := 0, run_by_fields := 0, names_truncated := 0, total_redactions := 0 }) := by
    have a1 : servicenow_fields.foldl (fun tx f => fieldSub f.data tx) "172.40.0.1".data = "172.40.0.1".data :=
      fieldFold_id servicenow_fields "172.40.0.1".data (by decide)
    have a2 : value_field_patterns.foldl (fun tx q => valueSub q tx) "172.40.0.1".data = "172.40.0.1".data :=
      valueFold_id "172.40.0.1".data (by decide)
    have a3 : ipStage "172.40.0.1".data = ("[REDACTED IP]".data, 0) := by decide
    have a4 : countSub macPat "[REDACTED MAC]".data "[REDACTED IP]".data = ("[REDACTED IP]".data, 0) := by decide
    have a5 : phoneStage "[REDACTED IP]".data = ("[REDACTED IP]".data, 0) := by decide
    have a6 : countSub emailPat "[REDACTED EMAIL]".data "[REDACTED IP]".data = ("[REDACTED IP]".data, 0) := by decide
    have a7 : countSub employeePat "[REDACTED EMPLOYEE ID]".data "[REDACTED IP]".data = ("[REDACTED IP]".data, 0) := by decide
    have a8 : countSub imeiPat "IMEI#[REDACTED]".data "[REDACTED IP]".data = ("[REDACTED IP]".data, 0) := by decide
    have a9 : countSub accountPat "Account [REDACTED]".data "[REDACTED IP]".data = ("[REDACTED IP]".data, 0) := by decide
    have a10 : countSub urlPat "[REDACTED URL]".data "[REDACTED IP]".data = ("[REDACTED IP]".data, 0) := by decide
    have a11 : runByStage "[REDACTED IP]".data = ("[REDACTED IP]".data, 0) := by decide
    have a12 : namesStage "[REDACTED IP]".data = ("[REDACTED IP]".data, 0) := by decide
    simp only [redact_sensitive, redactChars, a1, a2, a3, a4, a5, a6, a7, a8, a9, a10, a11, a12]
    decide
  rw [eA]
  exact ⟨rfl, rfl⟩

/-- Claim C4 (amended): the `ip_addresses` counter counts the IPv4-shaped
matches whose text does not start with one of the string prefixes `10.`,
`172.`, `192.168.`; this prefix test differs from the numeric test used for
substitution, so `172.40.0.1` is replaced but not counted, while `010.2.3.4`
is preserved (its first octet parses as 10) but counted. -/
theorem ip_count_startswith :
    redact_sensitive "010.2.3.4" = ("010.2.3.4", { ip_addresses := 1, mac_addresses := 0, phone_numbers := 0, email_addresses := 0, employee_ids := 0, imei_numbers := 0, account_numbers := 0, urls := 0, run_by_fields := 0, names_truncated := 0, total_redactions := 1 }) ∧
    ip_internal_prefixes.any (fun p => p.isPrefixOf "172.40.0.1".data) = true ∧
    ip_internal_prefixes.any (fun p => p.isPrefixOf "010.2.3.4".data) = false ∧
    ip_replacer "172.40.0.1".data = "[REDACTED IP]".data ∧
    ip_replacer "010.2.3.4".data = "010.2.3.4".data := by
  refine ⟨?_, by decide, by decide, by decide, by decide⟩
  have a1 : servicenow_fields.foldl (fun tx f => fieldSub f.data tx) "010.2.3.4".data = "010.2.3.4".data :=
    fieldFold_id servicenow_fields "010.2.3.4".data (by decide)
  have a2 : value_field_patterns.foldl (fun tx q => valueSub q tx) "010.2.3.4".data = "010.2.3.4".data :=
    valueFold_id "010.2.3.4".data (by decide)
  have a3 : ipStage "010.2.3.4".data = ("010.2.3.4".data, 1) := by decide
  have a4 : countSub macPat "[REDACTED MAC]".data "010.2.3.4".data = ("010.2.3.4".data, 0) := by decide
  have a5 : phoneStage "010.2.3.4".data = ("010.2.3.4".data, 0) := by decide
  have a6 : countSub emailPat "[REDACTED EMAIL]".data "010.2.3.4".data = ("010.2.3.4".data, 0) := by decide
  have a7 : countSub employeePat "[REDACTED EMPLOYEE ID]".data "010.2.3.4".data = ("010.2.3.4".data, 0) := by decide
  have a8 : countSub imeiPat "IMEI#[REDACTED]".data "010.2.3.4".data = ("010.2.3.4".data, 0) := by decide
  have a9 : countSub accountPat "Account [REDACTED]".data "010.2.3.4".data = ("010.2.3.4".data, 0) := by decide
  have a10 : countSub urlPat "[REDACTED URL]".data "010.2.3.4".data = ("010.2.3.4".data, 0) := by decide
  have a11 : runByStage "010.2.3.4".data = ("010.2.3.4".data, 0) := by decide
  have a12 : namesStage "010.2.3.4".data = ("010.2.3.4".data, 0) := by decide
  simp only [redact_sensitive, redactChars, a1, a2, a3, a4, a5, a6, a7, a8, a9, a10, a11, a12]
  decide

/-- Claim C5 (counterexample): the word marker "case" in the look-back window
does not exempt the digit sequence: the code only checks for `#` and the
`6-` case-ID rule, so `"case 5551234567"` is redacted and counted. -/
theorem phone_marker_not_excluded :
    redact_sensitive "case 5551234567" = ("case [REDACTED PHONE]", { ip_addresses := 0, mac_addresses := 0, phone_numbers := 1, email_addresses := 0, employee_ids := 0, imei_numbers := 0, account_numbers := 0, urls := 0, run_by_fields := 0, names_truncated := 0, total_redactions := 1 }) := by
  have a1 : servicenow_fields.foldl (fun tx f => fieldSub f.data tx) "case 5551234567".data = "case 5551234567".data :=
    fieldFold_id servicenow_fields "case 5551234567".data (by decide)
  have a2 : value_field_patterns.foldl (fun tx q => valueSub q tx) "case 5551234567".data = "case 5551234567".data :=
    valueFold_id "case 5551234567".data (by decide)
  have a3 : ipStage "case 5551234567".data = ("case 5551234567".data, 0) := by decide
  have a4 : countSub macPat "[REDACTED MAC]".data "case 5551234567".data = ("case 5551234567".data, 0) := by decide
  have a5 : phoneStage "case 5551234567".data = ("case [REDACTED PHONE]".data, 1) := by decide
  have a6 : countSub emailPat "[REDACTED EMAIL]".data "case [REDACTED PHONE]".data = ("case [REDACTED PHONE]".data, 0) := by decide
  have a7 : countSub employeePat "[REDACTED EMPLOYEE ID]".data "case [REDACTED PHONE]".data = ("case [REDACTED PHONE]".data, 0) := by decide
  have a8 : countSub imeiPat "IMEI#[REDACTED]".data "case [REDACTED PHONE]".data = ("case [REDACTED PHONE]".data, 0) := by decide
  have a9 : countSub accountPat "Account [REDACTED]".data "case [REDACTED PHONE]".data = ("case [REDACTED PHONE]".data, 0) := by decide
  have a10 : countSub urlPat "[REDACTED URL]".data "case [REDACTED PHONE]".data = ("case [REDACTED PHONE]".data, 0) := by decide
  have a11 : runByStage "case [REDACTED PHONE]".data = ("case [REDACTED PHONE]".data, 0) := by decide
  have a12 : namesStage "case [REDACTED PHONE]".data = ("case [REDACTED PHONE]".data, 0) := by decide
  simp only [redact_sensitive, redactChars, a1, a2, a3, a4, a5, a6, a7, a8, a9, a10, a11, a12]
  decide

/-- Claim C5 (amended): a phone-shaped digit sequence is left untouched
exactly when the 15 characters immediately preceding it (lower-cased) contain
`#`, or end with `6-` while the match is exactly ten digits; with no such
context (or at the start of the text) it is replaced with `[REDACTED PHONE]`
and counted.  The word markers ("case", "ticket", "rma", ...) of the original
claim are not consulted. -/
theorem phone_context_rules :
    (∀ (text m : List Char) (start cnt : Nat), 0 < start →
      (lowerList ((text.take start).drop (start - 15))).contains '#' = true →
      phone_replacer text start m cnt = (m, cnt)) ∧
    (∀ (text m : List Char) (start cnt : Nat), 0 < start →
      ("6-".data.isSuffixOf (lowerList ((text.take start).drop (start - 15)))
        && decide (m.length = 10) && pyIsDigit m) = true →
      phone_replacer text start m cnt = (m, cnt)) ∧
    (∀ (text m : List Char) (start cnt : Nat),
      ("6-".data.isSuffixOf (lowerList ((text.take start).drop (start - 15)))
        && decide (m.length = 10) && pyIsDigit m) = false →
      (lowerList ((text.take start).drop (start - 15))).contains '#' = false →
      phone_replacer text start m cnt = ("[REDACTED PHONE]".data, cnt + 1)) ∧
    redact_sensitive "ref# 5551234567" = ("ref# 5551234567", { ip_addresses := 0, mac_addresses := 0, phone_numbers := 0, email_addresses := 0, employee_ids := 0, imei_numbers := 0, account_numbers := 0, urls := 0, run_by_fields := 0, names_truncated := 0, total_redactions := 0 }) ∧
    redact_sensitive "6-5551234567" = ("6-5551234567", { ip_addresses := 0, mac_addresses := 0, phone_numbers := 0, email_addresses := 0, employee_ids := 0, imei_numbers := 0, account_numbers := 0, urls := 0, run_by_fields := 0, names_truncated := 0, total_redactions := 0 }) := by
  refine ⟨?_, ?_, ?_, ?_, ?_⟩
  · intro text m start cnt h0 hc
    unfold phone_replacer
    rw [if_pos h0]
    by_cases hb : ("6-".data.isSuffixOf (lowerList ((text.take start).drop (start - 15)))
        && decide (m.length = 10) && pyIsDigit m) = true
    · rw [if_pos hb]
    · rw [if_neg hb, if_pos hc]
  · intro text m start cnt h0 hb
    unfold phone_replacer
    rw [if_pos h0, if_pos hb]
  · intro text m start cnt hb hc
    unfold phone_replacer
    by_cases h0 : 0 < start
    · rw [if_pos h0, if_neg (fun hx => by rw [hx] at hb; exact Bool.noConfusion hb),
        if_neg (fun hx => by rw [hx] at hc; exact Bool.noConfusion hc)]
    · rw [if_neg h0]
  ·
    have d1 : servicenow_fields.foldl (fun tx f => fieldSub f.data tx) "ref# 5551234567".data = "ref# 5551234567".data :=
      fieldFold_id servicenow_fields "ref# 5551234567".data (by decide)
    have d2 : value_field_patterns.foldl (fun tx q => valueSub q tx) "ref# 5551234567".data = "ref# 5551234567".data :=
      valueFold_id "ref# 5551234567".data (by decide)
    have d3 : ipStage "ref# 5551234567".data = ("ref# 5551234567".data, 0) := by decide
    have d4 : countSub macPat "[REDACTED MAC]".data "ref# 5551234567".data = ("ref# 5551234567".data, 0) := by decide
    have d5 : phoneStage "ref# 5551234567".data = ("ref# 5551234567".data, 0) := by decide
    have d6 : countSub emailPat "[REDACTED EMAIL]".data "ref# 5551234567".data = ("ref# 5551234567".data, 0) := by decide
    have d7 : countSub employeePat "[REDACTED EMPLOYEE ID]".data "ref# 5551234567".data = ("ref# 5551234567".data, 0) := by decide
    have d8 : countSub imeiPat "IMEI#[REDACTED]".data "ref# 5551234567".data = ("ref# 5551234567".data, 0) := by decide
    have d9 : countSub accountPat "Account [REDACTED]".data "ref# 5551234567".data = ("ref# 5551234567".data, 0) := by decide
    have d10 : countSub urlPat "[REDACTED URL]".data "ref# 5551234567".data = ("ref# 5551234567".data, 0) := by decide
    have d11 : runByStage "ref# 5551234567".data = ("ref# 5551234567".data, 0) := by decide
    have d12 : namesStage "ref# 5551234567".data = ("ref# 5551234567".data, 0) := by decide
    simp only [redact_sensitive, redactChars, d1, d2, d3, d4, d5, d6, d7, d8, d9, d10, d11, d12]
    decide
  ·
    have e1 : servicenow_fields.foldl (fun tx f => fieldSub f.data tx) "6-5551234567".data = "6-5551234567".data :=
      fieldFold_id servicenow_fields "6-5551234567".data (by decide)
    have e2 : value_field_patterns.foldl (fun tx q => valueSub q tx) "6-5551234567".data = "6-5551234567".data :=
      valueFold_id "6-5551234567".data (by decide)
    have e3 : ipStage "6-5551234567".data = ("6-5551234567".data, 0) := by decide
    have e4 : countSub macPat "[REDACTED MAC]".data "6-5551234567".data = ("6-5551234567".data, 0) := by decide
    have e5 : phoneStage "6-5551234567".data = ("6-5551234567".data, 0) := by decide
    have e6 : countSub emailPat "[REDACTED EMAIL]".data "6-5551234567".data = ("6-5551234567".data, 0) := by decide
    have e7 : countSub employeePat "[REDACTED EMPLOYEE ID]".data "6-5551234567".data = ("6-5551234567".data, 0) := by decide
    have e8 : countSub imeiPat "IMEI#[REDACTED]".data "6-5551234567".data = ("6-5551234567".data, 0) := by decide
    have e9 : countSub accountPat "Account [REDACTED]".data "6-5551234567".data = ("6-5551234567".data, 0) := by decide
    have e10 : countSub urlPat "[REDACTED URL]".data "6-5551234567".data = ("6-5551234567".data, 0) := by decide
    have e11 : runByStage "6-5551234567".data = ("6-5551234567".data, 0) := by decide
    have e12 : namesStage "6-5551234567".data = ("6-5551234567".data, 0) := by decide
    simp only [redact_sensitive, redactChars, e1, e2, e3, e4, e5, e6, e7, e8, e9, e10, e11, e12]
    decide

/-- Witness for `phone_context_rules`: the `#` in "ref# " exempts the number. -/
theorem phone_context_rules_witness :
    phone_replacer "ref# 5551234567".data 5 "5551234567".data 0 = ("5551234567".data, 0) := by
  rw [phone_context_rules.1 "ref# 5551234567".data "5551234567".data 5 0
    (by decide) (by decide)]

/-- Claim C6: when no preserve rule fires (vocabulary, compound, technical,
morphological and suffix gates all pass), the disambiguator rewrites the
candidate to the first word, a space, the second word's initial and a period,
and bumps the counter by one; end to end, "Engineer: John Smith worked on
this" becomes "Engineer: John S. worked on this" with one name truncated. -/
theorem name_truncation :
    (∀ (m g1 : List Char) (cnt : Nat),
      name_business_hit g1 ((pySplitWs m).getD 1 []) = false →
      name_compound_hit m = false →
      name_technical_hit m = false →
      name_proper_case g1 ((pySplitWs m).getD 1 []) = true →
      name_business_ending ((pySplitWs m).getD 1 []) = false →
      name_replacer m g1 cnt
        = (g1 ++ ' ' :: ((pySplitWs m).getD 1 []).headD ' ' :: ['.'], cnt + 1)) ∧
    redact_sensitive "Engineer: John Smith worked on this" = ("Engineer: John S. worked on this", { ip_addresses := 0, mac_addresses := 0, phone_numbers := 0, email_addresses := 0, employee_ids := 0, imei_numbers := 0, account_numbers := 0, urls := 0, run_by_fields := 0, names_truncated := 1, total_redactions := 1 }) := by
  constructor
  · intro m g1 cnt h1 h2 h3 h4 h5
    simp only [name_replacer, h1, h2, h3, h4, h5]
    simp
  ·
    have f1 : servicenow_fields.foldl (fun tx f => fieldSub f.data tx) "Engineer: John Smith worked on this".data = "Engineer: John Smith worked on this".data :=
      fieldFold_id servicenow_fields "Engineer: John Smith worked on this".data (by decide)
    have f2 : value_field_patterns.foldl (fun tx q => valueSub q tx) "Engineer: John Smith worked on this".data = "Engineer: John Smith worked on this".data :=
      valueFold_id "Engineer: John Smith worked on this".data (by decide)
    have f3 : ipStage "Engineer: John Smith worked on this".data = ("Engineer: John Smith worked on this".data, 0) := by decide
    have f4 : countSub macPat "[REDACTED MAC]".data "Engineer: John Smith worked on this".data = ("Engineer: John Smith worked on this".data, 0) := by decide
    have f5 : phoneStage "Engineer: John Smith worked on this".data = ("Engineer: John Smith worked on this".data, 0) := by decide
    have f6 : countSub emailPat "[REDACTED EMAIL]".data "Engineer: John Smith worked on this".data = ("Engineer: John Smith worked on this".data, 0) := by decide
    have f7 : countSub employeePat "[REDACTED EMPLOYEE ID]".data "Engineer: John Smith worked on this".data = ("Engineer: John Smith worked on this".data, 0) := by decide
    have f8 : countSub imeiPat "IMEI#[REDACTED]".data "Engineer: John Smith worked on this".data = ("Engineer: John Smith worked on this".data, 0) := by decide
    have f9 : countSub accountPat "Account [REDACTED]".data "Engineer: John Smith worked on this".data = ("Engineer: John Smith worked on this".data, 0) := by decide
    have f10 : countSub urlPat "[REDACTED URL]".data "Engineer: John Smith worked on this".data = ("Engineer: John Smith worked on this".data, 0) := by decide
    have f11 : runByStage "Engineer: John Smith worked on this".data = ("Engineer: John Smith worked on this".data, 0) := by decide
    have f12 : namesStage "Engineer: John Smith worked on this".data = ("Engineer: John S. worked on this".data, 1) := by decide
    simp only [redact_sensitive, redactChars, f1, f2, f3, f4, f5, f6, f7, f8, f9, f10, f11, f12]
    decide

/-- Witness for `name_truncation`: the candidate "John Smith" is truncated. -/
theorem name_truncation_witness :
    name_replacer "John Smith".data "John".data 0 = ("John S.".data, 1) := by
  rw [name_truncation.1 "John Smith".data "John".data 0
    (by decide) (by decide) (by decide) (by decide) (by decide)]
  decide

/-- Claim C7: on a `Run By:` / `Run by:` line the whole remainder of the line
is replaced with a single `[REDACTED]` (dates included), the label and its
spacing are kept, each such line is counted, and the rule fires before the
name heuristics ever see the value.  The first conjunct proves the whole-line
replacement for an arbitrary newline-free value; the end-to-end conjuncts
cover both casings, the flexible spacing, a trailing date and an IP inside
the value. -/
theorem run_by_redaction :
    (∀ v : List Char, v ≠ [] → (∀ x ∈ v, (x != '\n') = true) →
      isSpaceC (v.headD ' ') = false →
      runByStage ("Run By: ".data ++ v) = ("Run By: [REDACTED]".data, 1)) ∧
    redact_sensitive "Run By: Jeremy Murray 08-03-2025" = ("Run By: [REDACTED]", { ip_addresses := 0, mac_addresses := 0, phone_numbers := 0, email_addresses := 0, employee_ids := 0, imei_numbers := 0, account_numbers := 0, urls := 0, run_by_fields := 1, names_truncated := 0, total_redactions := 1 }) ∧
    redact_sensitive "Run by:Alice Smith x\nRun By: 1.2.3.4" = ("Run by:[REDACTED]\nRun By: [REDACTED]", { ip_addresses := 1, mac_addresses := 0, phone_numbers := 0, email_addresses := 0, employee_ids := 0, imei_numbers := 0, account_numbers := 0, urls := 0, run_by_fields := 2, names_truncated := 0, total_redactions := 3 }) := by
  refine ⟨fun v hv hn hh => runByStage_line v hv hn hh, ?_, ?_⟩
  ·
    have g1 : servicenow_fields.foldl (fun tx f => fieldSub f.data tx) "Run By: Jeremy Murray 08-03-2025".data = "Run By: Jeremy Murray 08-03-2025".data :=
      fieldFold_id servicenow_fields "Run By: Jeremy Murray 08-03-2025".data (by decide)
    have g2 : value_field_patterns.foldl (fun tx q => valueSub q tx) "Run By: Jeremy Murray 08-03-2025".data = "Run By: Jeremy Murray 08-03-2025".data :=
      valueFold_id "Run By: Jeremy Murray 08-03-2025".data (by decide)
    have g3 : ipStage "Run By: Jeremy Murray 08-03-2025".data = ("Run By: Jeremy Murray 08-03-2025".data, 0) := by decide
    have g4 : countSub macPat "[REDACTED MAC]".data "Run By: Jeremy Murray 08-03-2025".data = ("Run By: Jeremy Murray 08-03-2025".data, 0) := by decide
    have g5 : phoneStage "Run By: Jeremy Murray 08-03-2025".data = ("Run By: Jeremy Murray 08-03-2025".data, 0) := by decide
    have g6 : countSub emailPat "[REDACTED EMAIL]".data "Run By: Jeremy Murray 08-03-2025".data = ("Run By: Jeremy Murray 08-03-2025".data, 0) := by decide
    have g7 : countSub employeePat "[REDACTED EMPLOYEE ID]".data "Run By: Jeremy Murray 08-03-2025".data = ("Run By: Jeremy Murray 08-03-2025".data, 0) := by decide
    have g8 : countSub imeiPat "IMEI#[REDACTED]".data "Run By: Jeremy Murray 08-03-2025".data = ("Run By: Jeremy Murray 08-03-2025".data, 0) := by decide
    have g9 : countSub accountPat "Account [REDACTED]".data "Run By: Jeremy Murray 08-03-2025".data = ("Run By: Jeremy Murray 08-03-2025".data, 0) := by decide
    have g10 : countSub urlPat "[REDACTED URL]".data "Run By: Jeremy Murray 08-03-2025".data = ("Run By: Jeremy Murray 08-03-2025".data, 0) := by decide
    have g11 : runByStage "Run By: Jeremy Murray 08-03-2025".data = ("Run By: [REDACTED]".data, 1) := by decide
    have g12 : namesStage "Run By: [REDACTED]".data = ("Run By: [REDACTED]".data, 0) := by decide
    simp only [redact_sensitive, redactChars, g1, g2, g3, g4, g5, g6, g7, g8, g9, g10, g11, g12]
    decide
  ·
    have h1 : servicenow_fields.foldl (fun tx f => fieldSub f.data tx) "Run by:Alice Smith x\nRun By: 1.2.3.4".data = "Run by:Alice Smith x\nRun By: 1.2.3.4".data :=
      fieldFold_id servicenow_fields "Run by:Alice Smith x\nRun By: 1.2.3.4".data (by decide)
    have h2 : value_field_patterns.foldl (fun tx q => valueSub q tx) "Run by:Alice Smith x\nRun By: 1.2.3.4".data = "Run by:Alice Smith x\nRun By: 1.2.3.4".data :=
      valueFold_id "Run by:Alice Smith x\nRun By: 1.2.3.4".data (by decide)
    have h3 : ipStage "Run by:Alice Smith x\nRun By: 1.2.3.4".data = ("Run by:Alice Smith x\nRun By: [REDACTED IP]".data, 1) := by decide
    have h4 : countSub macPat "[REDACTED MAC]".data "Run by:Alice Smith x\nRun By: [REDACTED IP]".data = ("Run by:Alice Smith x\nRun By: [REDACTED IP]".data, 0) := by decide
    have h5 : phoneStage "Run by:Alice Smith x\nRun By: [REDACTED IP]".data = ("Run by:Alice Smith x\nRun By: [REDACTED IP]".data, 0) := by decide
    have h6 : countSub emailPat "[REDACTED EMAIL]".data "Run by:Alice Smith x\nRun By: [REDACTED IP]".data = ("Run by:Alice Smith x\nRun By: [REDACTED IP]".data, 0) := by decide
    have h7 : countSub employeePat "[REDACTED EMPLOYEE ID]".data "Run by:Alice Smith x\nRun By: [REDACTED IP]".data = ("Run by:Alice Smith x\nRun By: [REDACTED IP]".data, 0) := by decide
    have h8 : countSub imeiPat "IMEI#[REDACTED]".data "Run by:Alice Smith x\nRun By: [REDACTED IP]".data = ("Run by:Alice Smith x\nRun By: [REDACTED IP]".data, 0) := by decide
    have h9 : countSub accountPat "Account [REDACTED]".data "Run by:Alice Smith x\nRun By: [REDACTED IP]".data = ("Run by:Alice Smith x\nRun By: [REDACTED IP]".data, 0) := by decide
    have h10 : countSub urlPat "[REDACTED URL]".data "Run by:Alice Smith x\nRun By: [REDACTED IP]".data = ("Run by:Alice Smith x\nRun By: [REDACTED IP]".data, 0) := by decide
    have h11 : runByStage "Run by:Alice Smith x\nRun By: [REDACTED IP]".data = ("Run by:[REDACTED]\nRun By: [REDACTED]".data, 2) := by decide
    have h12 : namesStage "Run by:[REDACTED]\nRun By: [REDACTED]".data = ("Run by:[REDACTED]\nRun By: [REDACTED]".data, 0) := by decide
    simp only [redact_sensitive, redactChars, h1, h2, h3, h4, h5, h6, h7, h8, h9, h10, h11, h12]
    decide

/-- Witness for `run_by_redaction`: the spec example's line value. -/
theorem run_by_redaction_witness :
    runByStage ("Run By: ".data ++ "Jeremy Murray 08-03-2025".data)
      = ("Run By: [REDACTED]".data, 1) :=
  run_by_redaction.1 "Jeremy Murray 08-03-2025".data (by decide) (by decide) (by decide)

/-- Claim C10: the engine is not the identity on PII-free text — the
ServiceNow formatting pre-pass inserts a newline between "the" and the field
label "Impact:", while every counter stays zero. -/
theorem prepass_rewrites_without_redaction :
    redact_sensitive "the Impact: low" = ("the\nImpact: low", { ip_addresses := 0, mac_addresses := 0, phone_numbers := 0, email_addresses := 0, employee_ids := 0, imei_numbers := 0, account_numbers := 0, urls := 0, run_by_fields := 0, names_truncated := 0, total_redactions := 0 }) ∧
    ("the\nImpact: low" : String) ≠ "the Impact: low" := by
  refine ⟨?_, by decide⟩
  have a1 : servicenow_fields.foldl (fun tx f => fieldSub f.data tx) "the Impact: low".data
      = "the\nImpact: low".data := by
    have hhead : servicenow_fields = "Impact:" :: servicenow_fields.tail := rfl
    have hstep : fieldSub "Impact:".data "the Impact: low".data = "the\nImpact: low".data := by
      decide
    rw [hhead, List.foldl_cons, hstep]
    exact fieldFold_id _ _ (by decide)
  have a2 : value_field_patterns.foldl (fun tx q => valueSub q tx) "the\nImpact: low".data = "the\nImpact: low".data :=
    valueFold_id "the\nImpact: low".data (by decide)
  have a3 : ipStage "the\nImpact: low".data = ("the\nImpact: low".data, 0) := by decide
  have a4 : countSub macPat "[REDACTED MAC]".data "the\nImpact: low".data = ("the\nImpact: low".data, 0) := by decide
  have a5 : phoneStage "the\nImpact: low".data = ("the\nImpact: low".data, 0) := by decide
  have a6 : countSub emailPat "[REDACTED EMAIL]".data "the\nImpact: low".data = ("the\nImpact: low".data, 0) := by decide
  have a7 : countSub employeePat "[REDACTED EMPLOYEE ID]".data "the\nImpact: low".data = ("the\nImpact: low".data, 0) := by decide
  have a8 : countSub imeiPat "IMEI#[REDACTED]".data "the\nImpact: low".data = ("the\nImpact: low".data, 0) := by decide
  have a9 : countSub accountPat "Account [REDACTED]".data "the\nImpact: low".data = ("the\nImpact: low".data, 0) := by decide
  have a10 : countSub urlPat "[REDACTED URL]".data "the\nImpact: low".data = ("the\nImpact: low".data, 0) := by decide
  have a11 : runByStage "the\nImpact: low".data = ("the\nImpact: low".data, 0) := by decide
  have a12 : namesStage "the\nImpact: low".data = ("the\nImpact: low".data, 0) := by decide
  simp only [redact_sensitive, redactChars, a1, a2, a3, a4, a5, a6, a7, a8, a9, a10, a11, a12]
  decide

end Redactor
